import Mathlib

/-!
# Parking app (`src/app.js`): reservations, catalog, session and dashboard data

A shallow embedding of the state held by the Vue application of `src/app.js`
and of the demo-mode paths of its methods (`DEMO_MODE` is the constant `true`
on line 1, so every method returns at the end of its demo branch).

Modelling conventions.

* JavaScript numbers that count spots, prices and identifiers are `Int`.
  The sums and differences that keep the dashboard statistics are rounded to
  the nearest double (`toDouble`), since a form can hold any number; the
  counters of the user lots only move by 1 from the demo constants and are
  exact.
* An object reference into an array is the position of the object in the
  list: `selectedLot` is an index into `userData.parkingLots`,
  `selectedReservation` an index into `userData.reservations`. `unshift`
  moves every object one position up, so a stored index is moved with it.
* `null` and the empty input string `''` are `none`.
* `Date.now()` and `Math.random()` are arguments of the methods that call
  them. The random draw is a rational number that is a double; its product
  by 5 is rounded to the nearest double.
* `localStorage` is the pair of its entries `token` and `user`; the runtime
  functions `JSON.stringify` and `JSON.parse`, the answer of the `confirm`
  dialog and the answer of the server to a remote call are arguments as well.
  A method that can send requests returns the requests it sent.
* The `length` of a string is its number of UTF-16 code units; the runtime
  method `toLowerCase` is an argument of the search.
* A method or computed property that can throw returns an `Option`; `none` is
  the exception.
* The object literal used as a dictionary by the spending chart is the list
  of its own properties in insertion order, read through the properties it
  inherits from `Object.prototype`.
* `setTimeout` (messages fade after five seconds) and chart rendering
  (`$nextTick`) do not touch the application data and are left out: a method
  maps the state before the handler to the state when the handler returns.
-/

namespace ParkingApp

/-! ## Data model -/

/-- Identity kept in `user`: `{username, role}`. -/
structure User where
  username : String
  role : String
  deriving DecidableEq

/-- Element of `userData.parkingLots` (fields of the lots of
`loadUserDashboard`). -/
structure UserLot where
  id : Int
  name : String
  total_slots : Int
  available_slots : Int
  price_per_hour : Int
  deriving DecidableEq

/-- Element of `userData.reservations`. -/
structure Reservation where
  id : Int
  lot_name : String
  status : String
  cost : Int
  deriving DecidableEq

/-- Element of `adminData.parkingLots`. The lots of `loadAdminDashboard` carry
no address, pincode or price (`none`); those of `createParkingLot` do. -/
structure AdminLot where
  id : Int
  name : String
  address : Option String
  pincode : Option String
  price_per_hour : Option Int
  total_spots : Int
  available_spots : Int
  occupied_spots : Int
  deriving DecidableEq

/-- Object stored in `adminData.stats`. -/
structure Stats where
  total_lots : Int
  total_spots : Int
  available_spots : Int
  occupied_spots : Int
  active_reservations : Int
  total_users : Int
  deriving DecidableEq

/-- The `adminData` object; `stats` starts as `null`. -/
structure AdminData where
  stats : Option Stats
  parkingLots : List AdminLot
  users : List User
  deriving DecidableEq

/-- The `userData` object. -/
structure UserData where
  parkingLots : List UserLot
  reservations : List Reservation
  deriving DecidableEq

/-- The `loginForm` object. -/
structure LoginForm where
  username : String
  password : String
  deriving DecidableEq

/-- The `registerForm` object. -/
structure RegisterForm where
  username : String
  email : String
  password : String
  confirmPassword : String
  deriving DecidableEq

/-- The `newLotForm` object. The two number inputs hold `''` (`none`) or a
number. -/
structure NewLotForm where
  name : String
  address : String
  pincode : String
  price_per_hour : Option Int
  total_spots : Option Int
  deriving DecidableEq

/-- The `editLotForm` object. -/
structure EditLotForm where
  id : Option Int
  name : String
  address : String
  pincode : String
  price_per_hour : Option Int
  total_spots : Option Int
  deriving DecidableEq

/-- The component state returned by `data()`. -/
structure App where
  currentView : String
  user : Option User
  token : Option String
  loading : Bool
  error : Option String
  success : Option String
  loginForm : LoginForm
  registerForm : RegisterForm
  adminData : AdminData
  userData : UserData
  newLotForm : NewLotForm
  editLotForm : EditLotForm
  showNewLotModal : Bool
  showEditLotModal : Bool
  searchQuery : String
  showBookingModal : Bool
  showReleaseModal : Bool
  selectedLot : Option Nat
  selectedReservation : Option Nat
  deriving DecidableEq

/-- The empty `newLotForm` (lines 46-52 and 757-763). -/
def emptyNewLotForm : NewLotForm :=
  { name := "", address := "", pincode := "", price_per_hour := none, total_spots := none }

/-- Initial state, `data()` (lines 9-73). -/
def data : App :=
  { currentView := "login"
    user := none
    token := none
    loading := false
    error := none
    success := none
    loginForm := { username := "", password := "" }
    registerForm := { username := "", email := "", password := "", confirmPassword := "" }
    adminData := { stats := none, parkingLots := [], users := [] }
    userData := { parkingLots := [], reservations := [] }
    newLotForm := emptyNewLotForm
    editLotForm :=
      { id := none, name := "", address := "", pincode := "", price_per_hour := none,
        total_spots := none }
    showNewLotModal := false
    showEditLotModal := false
    searchQuery := ""
    showBookingModal := false
    showReleaseModal := false
    selectedLot := none
    selectedReservation := none }

/-! ## Doubles -/

/-- Round to nearest, ties to even: the multiple of `unit` nearest to `n`; of
two nearest multiples, the even one. -/
def roundToEven (n unit : Nat) : Nat :=
  let q := n / unit
  let rest := n % unit
  if 2 * rest < unit then q * unit
  else if unit < 2 * rest then (q + 1) * unit
  else if q % 2 = 0 then q * unit else (q + 1) * unit

/-- The spacing of the doubles around `n`: the least power of two `unit`,
from `unit` on and found by at most `fuel` doublings, with
`n < 2^53 * unit`. -/
def unitOf (n : Nat) : Nat → Nat → Nat
  | 0, unit => unit
  | fuel + 1, unit => if n < 9007199254740992 * unit then unit else unitOf n fuel (2 * unit)

/-- The natural number `n` rounded to 53 significant bits, as a double holds
it. -/
def roundSignificand (n : Nat) : Nat :=
  roundToEven n (unitOf n 1024 1)

/-- The double nearest to an integer, which is the result of `+`, `-` and
`*` on whole doubles: an integer up to `2^53` in magnitude is kept, a larger
one is rounded to 53 significant bits. Overflow to `Infinity` (from `2^1024`
on) is not modelled. -/
def toDouble (x : Int) : Int :=
  x.sign * roundSignificand x.natAbs

/-- A value that `Math.random()` can return: a double in `[0, 1)`, which is a
fraction `m / 2^k` in lowest terms with `m < 2^53` and `k <= 1074`. -/
def isRandomDraw (random : ℚ) : Prop :=
  0 ≤ random ∧ random < 1 ∧ random.num.natAbs < 9007199254740992 ∧
    ∃ k, k ≤ 1074 ∧ random.den = 2 ^ k

/-! ## Array helpers -/

/-- The method `Array.prototype.findIndex`: position of the first element
satisfying `p`; `none` stands for `-1`. -/
def findIndex {α : Type} (p : α → Bool) : List α → Option Nat
  | [] => none
  | x :: xs => if p x then some 0 else (findIndex p xs).map (· + 1)

/-! ## Messages -/

/-- Method `clearMessages` (lines 105-108). -/
def clearMessages (s : App) : App :=
  { s with error := none, success := none }

/-- Method `showError` (lines 110-115), without the timer. -/
def showError (s : App) (message : String) : App :=
  { s with error := some message }

/-- Method `showSuccess` (lines 117-122), without the timer. -/
def showSuccess (s : App) (message : String) : App :=
  { s with success := some message }

/-! ## User dashboard -/

/-- Demo branch of `loadUserDashboard` (lines 463-517). -/
def loadUserDashboard (s : App) : App :=
  { s with
    userData :=
      { parkingLots :=
          [ { id := 1, name := "City Center Parking", total_slots := 50,
              available_slots := 18, price_per_hour := 40 },
            { id := 2, name := "Mall Parking", total_slots := 80,
              available_slots := 42, price_per_hour := 30 },
            { id := 3, name := "Airport Parking", total_slots := 120,
              available_slots := 65, price_per_hour := 60 } ]
        reservations :=
          [ { id := 101, lot_name := "City Center Parking", status := "active", cost := 120 },
            { id := 102, lot_name := "Mall Parking", status := "completed", cost := 90 },
            { id := 103, lot_name := "Airport Parking", status := "completed", cost := 180 } ] } }

/-- Method `confirmBooking(lot)` (lines 895-898); `lot` is the element at
position `i` of `userData.parkingLots` (the template calls it from the loop
over that list). -/
def confirmBooking (s : App) (i : Nat) : App :=
  { s with selectedLot := some i, showBookingModal := true }

/-- Method `bookParkingSpot` (lines 900-937), demo branch. `now` is the value
of `Date.now()`. A selection that points at no lot of the list cannot be set
by `confirmBooking` from the template; the state is returned as it is. -/
def bookParkingSpot (s : App) (now : Int) : App :=
  match s.selectedLot with
  | none => s
  | some i =>
    match s.userData.parkingLots[i]? with
    | none => s
    | some selectedLot =>
      let s := clearMessages s
      if selectedLot.available_slots ≤ 0 then
        showError s "No slots available in this parking lot"
      else
        let selectedLot := { selectedLot with available_slots := selectedLot.available_slots - 1 }
        let newReservation : Reservation :=
          { id := now
            lot_name := selectedLot.name
            status := "active"
            cost := selectedLot.price_per_hour }
        let s :=
          { s with
            userData :=
              { parkingLots := s.userData.parkingLots.set i selectedLot
                reservations := newReservation :: s.userData.reservations }
            selectedReservation := s.selectedReservation.map (· + 1) }
        let s := showSuccess s "Parking spot booked successfully (Demo Mode)"
        { s with showBookingModal := false, selectedLot := none }

/-- The expression `Math.floor(Math.random() * 5) + 1` (line 968) at the
draw `random`, a double `m / 2^k`. The exact product is `5 * m / 2^k`; the
product that JavaScript computes is the nearest double, `5 * m` rounded to 53
significant bits over `2^k`; `Math.floor` of this non-negative quotient is
the integer division. -/
def durationHours (random : ℚ) : Int :=
  ((roundSignificand (random.num.natAbs * 5) / random.den : Nat) : Int) + 1

/-- The template string of line 981 (characters as in the source file). -/
def releaseMessage (parkingCost durationHours : Int) : String :=
  s!"Spot released! Cost: â‚¹{parkingCost} for {durationHours} hours (Demo Mode)"

/-- Method `releaseParkingSpot` (lines 956-993), demo branch. `random` is the
value of `Math.random()`. A selection that points at no reservation of the
list leaves the state as it is. The product of line 969 is taken exactly:
the costs are the constants of `loadUserDashboard` or the prices of its lots
and the hours are at most 5, far inside the range where doubles are exact. -/
def releaseParkingSpot (s : App) (random : ℚ) : App :=
  match s.selectedReservation with
  | none => s
  | some j =>
    match s.userData.reservations[j]? with
    | none => s
    | some selectedReservation =>
      let s := clearMessages s
      let selectedReservation := { selectedReservation with status := "completed" }
      let durationHours := durationHours random
      let parkingCost := selectedReservation.cost * durationHours
      let lot := findIndex (fun lot => lot.name == selectedReservation.lot_name)
        s.userData.parkingLots
      let parkingLots :=
        match lot with
        | some k =>
          match s.userData.parkingLots[k]? with
          | some lot =>
            s.userData.parkingLots.set k { lot with available_slots := lot.available_slots + 1 }
          | none => s.userData.parkingLots
        | none => s.userData.parkingLots
      let s :=
        { s with
          userData :=
            { parkingLots := parkingLots
              reservations := s.userData.reservations.set j selectedReservation } }
      let s := showSuccess s (releaseMessage parkingCost durationHours)
      { s with showReleaseModal := false, selectedReservation := none }

/-! ## Admin dashboard -/

/-- Demo branch of `loadAdminDashboard` (lines 287-329). -/
def loadAdminDashboard (s : App) : App :=
  { s with
    adminData :=
      { s.adminData with
        stats := some
          { total_lots := 3
            total_spots := 250
            available_spots := 125
            occupied_spots := 125
            active_reservations := 14
            total_users := 42 }
        parkingLots :=
          [ { id := 1, name := "City Center Parking", address := none, pincode := none,
              price_per_hour := none, total_spots := 50, available_spots := 18,
              occupied_spots := 32 },
            { id := 2, name := "Mall Parking", address := none, pincode := none,
              price_per_hour := none, total_spots := 80, available_spots := 42,
              occupied_spots := 38 },
            { id := 3, name := "Airport Parking", address := none, pincode := none,
              price_per_hour := none, total_spots := 120, available_spots := 65,
              occupied_spots := 55 } ] } }

/-- JavaScript truthiness of a number input: `''` and `0` are falsy. -/
def truthyNumber : Option Int → Bool
  | none => false
  | some n => n != 0

/-- The conversion `Number(x)` on a truthy number input. `Number('')` is `0`. -/
def Number : Option Int → Int
  | none => 0
  | some n => n

/-- The expression `x || fallback` on strings: the empty string is falsy. -/
def orDefault (x fallback : String) : String :=
  if x = "" then fallback else x

/-- Method `createParkingLot` (lines 718-771), demo branch. `now` is the
value of `Date.now()`. When `adminData.stats` is `null` the statement of line
750 throws after the `push` of line 747 and the rest of the handler does not
run. The sums of lines 750-751 are sums of doubles. -/
def createParkingLot (s : App) (now : Int) : App :=
  let s := clearMessages s
  if s.newLotForm.name = "" ∨ truthyNumber s.newLotForm.price_per_hour = false ∨
      truthyNumber s.newLotForm.total_spots = false then
    showError s "Please fill all required fields"
  else
    let newLot : AdminLot :=
      { id := now
        name := s.newLotForm.name
        address := some (orDefault s.newLotForm.address "Demo Address")
        pincode := some (orDefault s.newLotForm.pincode "000000")
        price_per_hour := some (Number s.newLotForm.price_per_hour)
        total_spots := Number s.newLotForm.total_spots
        available_spots := Number s.newLotForm.total_spots
        occupied_spots := 0 }
    let s :=
      { s with adminData := { s.adminData with parkingLots := s.adminData.parkingLots ++ [newLot] } }
    match s.adminData.stats with
    | none => s
    | some stats =>
      let stats := { stats with total_spots := toDouble (stats.total_spots + newLot.total_spots) }
      let stats := { stats with available_spots := toDouble (stats.available_spots + newLot.total_spots) }
      let s := { s with adminData := { s.adminData with stats := some stats } }
      let s := showSuccess s "Parking lot created successfully! (Demo Mode)"
      { s with showNewLotModal := false, newLotForm := emptyNewLotForm }

/-- Method `deleteParkingLot(lotId)` (lines 799-836), demo branch.
`confirmed` is the answer of the `confirm` dialog. When `adminData.stats` is
`null` the statement of line 821 throws before the lot is removed. The
differences of lines 821-823 are differences of doubles. -/
def deleteParkingLot (s : App) (lotId : Int) (confirmed : Bool) : App :=
  if confirmed = false then s
  else
    let s := clearMessages s
    match findIndex (fun lot => lot.id == lotId) s.adminData.parkingLots with
    | none => showError s "Parking lot not found"
    | some lotIndex =>
      match s.adminData.parkingLots[lotIndex]?, s.adminData.stats with
      | some lot, some stats =>
        let stats := { stats with total_spots := toDouble (stats.total_spots - lot.total_spots) }
        let stats := { stats with available_spots := toDouble (stats.available_spots - lot.available_spots) }
        let stats := { stats with occupied_spots := toDouble (stats.occupied_spots - lot.occupied_spots) }
        let s :=
          { s with
            adminData :=
              { s.adminData with
                stats := some stats
                parkingLots := s.adminData.parkingLots.eraseIdx lotIndex } }
        showSuccess s "Parking lot deleted successfully! (Demo Mode)"
      | _, _ => s

/-- One admin action on the dashboard: the form is filled in and submitted to
`createParkingLot`, or `deleteParkingLot` is called on an identifier. -/
inductive AdminAction where
  | create (form : NewLotForm) (now : Int)
  | delete (lotId : Int) (confirmed : Bool)
  deriving DecidableEq

/-- Effect of one admin action on the state. -/
def AdminAction.run (s : App) : AdminAction → App
  | .create form now => createParkingLot { s with newLotForm := form } now
  | .delete lotId confirmed => deleteParkingLot s lotId confirmed

/-- State after `loadAdminDashboard` followed by the given actions, in
order. -/
def adminRun (s : App) (actions : List AdminAction) : App :=
  actions.foldl AdminAction.run (loadAdminDashboard s)

/-- An action is successful when it ends in the success message of its
method. -/
def AdminAction.succeeds (s : App) : AdminAction → Bool
  | .create form now =>
    (createParkingLot { s with newLotForm := form } now).success ==
      some "Parking lot created successfully! (Demo Mode)"
  | .delete lotId confirmed =>
    (deleteParkingLot s lotId confirmed).success ==
      some "Parking lot deleted successfully! (Demo Mode)"

/-- Sum of a counter over a catalog, `Σ lot.field`. -/
def sumOf (f : AdminLot → Int) (lots : List AdminLot) : Int :=
  (lots.map f).sum

/-- Delete button of a row of the lots table (template lines 1433-1440):
`@click="deleteParkingLot(lot.id)"` with `:disabled="lot.occupied_spots > 0"`.
A disabled button fires no click; `lot` is the lot shown in the row. -/
def deleteButtonClick (s : App) (lot : AdminLot) (confirmed : Bool) : App :=
  if lot.occupied_spots > 0 then s else deleteParkingLot s lot.id confirmed

/-- The clock has advanced before every `createParkingLot` of the sequence:
each `Date.now()` is larger than `last` and than the one before it. -/
def clockAdvances : Int → List AdminAction → Bool
  | _, [] => true
  | last, .create _ now :: rest => decide (last < now) && clockAdvances now rest
  | last, .delete _ _ :: rest => clockAdvances last rest

/-! ## Session, storage and remote calls -/

/-- The constant `DEMO_MODE` (line 1). -/
def DEMO_MODE : Bool := true

/-- Method `navigateTo` (lines 99-103). -/
def navigateTo (s : App) (view : String) : App :=
  { s with currentView := view, error := none, success := none }

/-- The two `localStorage` entries the application uses. `none` is an absent
key, for which `getItem` returns `null`. -/
structure Storage where
  token : Option String
  user : Option String
  deriving DecidableEq

/-- The runtime functions `JSON.stringify` and `JSON.parse` on identity
objects. `parse` is `none` when `JSON.parse` throws. -/
structure JSON where
  stringify : User → String
  parse : String → Option User

/-- The property `length` of a JavaScript string: its number of UTF-16 code
units. -/
def jsLength (s : String) : Nat :=
  (s.toList.map (fun c => if c.val < 0x10000 then 1 else 2)).sum

/-- A request sent by `apiCall`: endpoint, method, the fields of the body and
the token of the `Authorization` header. -/
structure ApiRequest where
  endpoint : String
  method : String
  data : List (String × String)
  bearer : Option String
  deriving DecidableEq

/-- Method `apiCall` (lines 124-157). `reply` is the answer of the server:
`.ok result` for a response with `response.ok`, `.error message` for the
message of the error that `apiCall` throws. Gives the state when the call has
settled (`loading` is `false` again), the request that was sent and the
answer. -/
def apiCall {α : Type} (s : App) (endpoint method : String) (data : List (String × String))
    (reply : Except String α) : App × ApiRequest × Except String α :=
  ({ s with loading := false },
   { endpoint := endpoint, method := method, data := data,
     bearer := s.token.filter (fun token => token != "") },
   reply)

/-- Demo branch of `login` (lines 178-206), which ends in `return`: the
statements of lines 209-237 are not reached while `DEMO_MODE` is `true`. -/
def login (json : JSON) (s : App) (storage : Storage) : App × Storage :=
  let s := clearMessages s
  let username := s.loginForm.username
  let user : User :=
    { username := username
      role := if username = "admin" then "admin" else "user" }
  let s := { s with user := some user }
  let s := { s with token := some "demo-token" }
  let storage := { storage with token := s.token }
  let storage := { storage with user := some (json.stringify user) }
  let s := showSuccess s "Logged in (Demo Mode)"
  let s :=
    if user.role = "admin" then loadAdminDashboard (navigateTo s "admin-dashboard")
    else loadUserDashboard (navigateTo s "user-dashboard")
  ({ s with loginForm := { username := "", password := "" } }, storage)

/-- The statements of `login` after the demo block (lines 209-237), run after
the `clearMessages` of line 179; this is what `login` does when `DEMO_MODE` is
`false`. `reply` is the answer to `/api/auth/login`: the access token and the
identity. Gives the state, the storage and the requests sent. -/
def loginBackend (json : JSON) (s : App) (storage : Storage)
    (reply : Except String (String × User)) : App × Storage × List ApiRequest :=
  let s := clearMessages s
  if s.loginForm.username = "" ∨ s.loginForm.password = "" then
    (showError s "Please enter username and password", storage, [])
  else
    match apiCall s "/api/auth/login" "POST"
        [("username", s.loginForm.username), ("password", s.loginForm.password)] reply with
    | (s, request, .ok (access_token, user)) =>
      let s := { s with token := some access_token, user := some user }
      let storage : Storage := { token := some access_token, user := some (json.stringify user) }
      let s := showSuccess s "Login successful!"
      let s :=
        if user.role = "admin" then loadAdminDashboard (navigateTo s "admin-dashboard")
        else loadUserDashboard (navigateTo s "user-dashboard")
      ({ s with loginForm := { username := "", password := "" } }, storage, [request])
    | (s, request, .error message) => (showError s message, storage, [request])

/-- Method `register` (lines 240-273). `reply` is the answer to
`/api/auth/register`. Gives the state and the requests sent. -/
def register (s : App) (reply : Except String Unit) : App × List ApiRequest :=
  let s := clearMessages s
  if s.registerForm.username = "" ∨ s.registerForm.email = "" ∨
      s.registerForm.password = "" then
    (showError s "Please fill all fields", [])
  else if s.registerForm.password ≠ s.registerForm.confirmPassword then
    (showError s "Passwords do not match", [])
  else if jsLength s.registerForm.password < 6 then
    (showError s "Password must be at least 6 characters", [])
  else
    match apiCall s "/api/auth/register" "POST"
        [("username", s.registerForm.username), ("email", s.registerForm.email),
         ("password", s.registerForm.password)] reply with
    | (s, request, .ok _) =>
      let s := showSuccess s "Registration successful! Please login."
      let s := navigateTo s "login"
      let s := { s with loginForm := { s.loginForm with username := s.registerForm.username } }
      ({ s with
         registerForm := { username := "", email := "", password := "", confirmPassword := "" } },
       [request])
    | (s, request, .error message) => (showError s message, [request])

/-- Method `checkAuth` (lines 1071-1087). An entry is used when it is present
and not the empty string. When `JSON.parse` throws, the token has already been
assigned. -/
def checkAuth (json : JSON) (s : App) (storage : Storage) : App :=
  match storage.token, storage.user with
  | some token, some user =>
    if token ≠ "" ∧ user ≠ "" then
      let s := { s with token := some token }
      match json.parse user with
      | none => s
      | some identity =>
        let s := { s with user := some identity }
        if identity.role = "admin" then loadAdminDashboard (navigateTo s "admin-dashboard")
        else loadUserDashboard (navigateTo s "user-dashboard")
    else s
  | _, _ => s

/-- Hook `mounted` (lines 1090-1092): a fresh application state runs
`checkAuth` on the persisted storage. -/
def mounted (json : JSON) (storage : Storage) : App :=
  checkAuth json data storage

/-- Method `logout` (lines 275-282). -/
def logout (s : App) (storage : Storage) : App × Storage :=
  let s := { s with token := none }
  let s := { s with user := none }
  let storage := { storage with token := none }
  let storage := { storage with user := none }
  let s := navigateTo s "login"
  (showSuccess s "Logged out successfully", storage)

/-! ## Sequences of user actions and computed lists -/

/-- One step on the user dashboard: a lot is selected (`confirmBooking`), a
reservation is selected for release, or one of the two methods is called on
the current selection. -/
inductive UserAction where
  | select (i : Nat)
  | selectReservation (j : Nat)
  | book (now : Int)
  | release (random : ℚ)

/-- Effect of one user action on the state. -/
def UserAction.run (s : App) : UserAction → App
  | .select i => confirmBooking s i
  | .selectReservation j => { s with selectedReservation := some j }
  | .book now => bookParkingSpot s now
  | .release random => releaseParkingSpot s random

/-- State after the given user actions, in order. -/
def userRun (s : App) (actions : List UserAction) : App :=
  actions.foldl UserAction.run s

/-- Computed property `activeReservations` (lines 89-91). -/
def activeReservations (s : App) : List Reservation :=
  s.userData.reservations.filter (fun res => res.status == "active")

/-- Computed property `completedReservations` (lines 93-95). -/
def completedReservations (s : App) : List Reservation :=
  s.userData.reservations.filter (fun res => res.status == "completed")

/-! ## Search in the lots table -/

/-- The method `String.prototype.includes`: `query` occurs in `text` as a
contiguous run of characters. -/
def includes (text query : String) : Bool :=
  decide (query.toList <:+: text.toList)

/-- The callback of the `filter` of lines 82-86 on one lot. `||` evaluates
from left to right and stops at the first true operand; `none` is the
`TypeError` thrown when `toLowerCase` or `includes` is read from an absent
(`undefined`) address or pincode. `toLowerCase` is the runtime method
`String.prototype.toLowerCase`. -/
def matchesQuery (toLowerCase : String → String) (query : String) (lot : AdminLot) :
    Option Bool :=
  if includes (toLowerCase lot.name) query then some true
  else
    match lot.address with
    | none => none
    | some address =>
      if includes (toLowerCase address) query then some true
      else
        match lot.pincode with
        | none => none
        | some pincode => some (includes pincode query)

/-- The method `Array.prototype.filter` with a callback that can throw: the
callback runs on the elements in order and the first exception ends the
call. -/
def filterLots (callback : AdminLot → Option Bool) : List AdminLot → Option (List AdminLot)
  | [] => some []
  | lot :: lots =>
    match callback lot with
    | none => none
    | some keep =>
      match filterLots callback lots with
      | none => none
      | some rest => some (if keep then lot :: rest else rest)

/-- Computed property `filteredParkingLots` (lines 76-87); `none` when it
throws. -/
def filteredParkingLots (toLowerCase : String → String) (s : App) : Option (List AdminLot) :=
  if s.searchQuery = "" then
    some s.adminData.parkingLots
  else
    let query := toLowerCase s.searchQuery
    filterLots (matchesQuery toLowerCase query) s.adminData.parkingLots

/-! ## Spending per lot -/

/-- Value of a property of the object `spendingByLot`: a number, or the text
that `+=` makes when its left operand is not a number. -/
inductive Spending where
  | number (n : Int)
  | text
  deriving DecidableEq

/-- Names of the properties that the object literal of line 605 inherits from
`Object.prototype`. Reading one of them from an object that has no own
property of that name gives a function (for `__proto__` the prototype object),
which is truthy. -/
def inheritedNames : List String :=
  ["constructor", "hasOwnProperty", "isPrototypeOf", "propertyIsEnumerable", "toLocaleString",
   "toString", "valueOf", "__proto__", "__defineGetter__", "__defineSetter__",
   "__lookupGetter__", "__lookupSetter__"]

/-- Assignment to an own property: the value of an existing property is
replaced in place, a new property is added after the others. -/
def setOwn : List (String × Spending) → String → Spending → List (String × Spending)
  | [], name, value => [(name, value)]
  | (key, old) :: rest, name, value =>
    if key = name then (key, value) :: rest else (key, old) :: setOwn rest name value

/-- One run of the callback of `forEach` (lines 616-626) on the own
properties of `spendingByLot`, kept in insertion order. The cost is
`parseFloat(reservation.cost) || 0`, which is the cost itself for a number.
A number is truthy when it is not `0`. An assignment to `__proto__` of a value
that is no object is ignored. -/
def addSpending (spendingByLot : List (String × Spending)) (reservation : Reservation) :
    List (String × Spending) :=
  let lotName := reservation.lot_name
  let cost := reservation.cost
  match spendingByLot.lookup lotName with
  | some (.number n) =>
    if n ≠ 0 then setOwn spendingByLot lotName (.number (n + cost))
    else setOwn spendingByLot lotName (.number cost)
  | some .text => setOwn spendingByLot lotName .text
  | none =>
    if lotName ∈ inheritedNames then
      if lotName = "__proto__" then spendingByLot else setOwn spendingByLot lotName .text
    else setOwn spendingByLot lotName (.number cost)

/-- The number `n` when `name` is an array index: the decimal text, without
leading zeros, of a number below `2^32 - 1`. -/
def arrayIndex (name : String) : Option Nat :=
  let digits := name.toList
  if digits ≠ [] ∧ digits.all Char.isDigit = true ∧ (digits.head? ≠ some '0' ∨ digits.length = 1)
  then
    let n := digits.foldl (fun n c => 10 * n + (c.toNat - 48)) 0
    if n < 4294967295 then some n else none
  else none

/-- Order of `Object.keys` and `Object.values`: own properties whose name is an
array index come first, in ascending numeric order, then the others in
insertion order. -/
def ownEntries (object : List (String × Spending)) : List (String × Spending) :=
  (object.filter (fun entry => (arrayIndex entry.1).isSome)).insertionSort
      (fun a b => (arrayIndex a.1).getD 0 ≤ (arrayIndex b.1).getD 0) ++
    object.filter (fun entry => (arrayIndex entry.1).isNone)

/-- The aggregation of `renderUserSpendingChart` (lines 605-628), with the
canvas present: the `labels` and the `data` handed to the chart; `none` when
there is no completed reservation (`No spending data yet`). -/
def renderUserSpendingChart (reservations : List Reservation) :
    Option (List String × List Spending) :=
  let completedReservations := reservations.filter (fun r => r.status == "completed")
  if completedReservations.length = 0 then none
  else
    let spendingByLot := completedReservations.foldl addSpending []
    let labels := (ownEntries spendingByLot).map (·.1)
    let data := (ownEntries spendingByLot).map (·.2)
    some (labels, data)

/-- Sum of the costs of the reservations of a list that are on the lot
`name`. -/
def costOn (name : String) (reservations : List Reservation) : Int :=
  ((reservations.filter (fun r => r.lot_name == name)).map (·.cost)).sum

/-- The number held by a value of `spendingByLot`; a text counts as `0`. -/
def Spending.value : Spending → Int
  | .number n => n
  | .text => 0

/-! ## Durations -/

/-- Argument of `calculateDuration`: a missing (falsy) start time, a text
that `new Date` cannot read (`Invalid Date`), or a date text with its time
value in milliseconds. -/
inductive StartTime where
  | missing
  | invalid
  | time (ms : Int)
  deriving DecidableEq

/-- Method `calculateDuration(startTime)` (lines 1056-1069). `now` is the time
value of `new Date()`. `Math.floor` of a quotient is the floor division, `%`
the remainder of the truncated division; on `Invalid Date` every number is
`NaN`. -/
def calculateDuration (startTime : StartTime) (now : Int) : String :=
  match startTime with
  | .missing => "N/A"
  | .invalid => "NaNh NaNm"
  | .time start =>
    let minutes := Int.fdiv (now - start) 60000
    if minutes < 60 then
      s!"{minutes} min"
    else
      let hours := Int.fdiv minutes 60
      let mins := Int.tmod minutes 60
      s!"{hours}h {mins}m"

/-! ## Concrete states used as test inputs -/

/-- A catalog in which two lots share the name `P`. -/
def twoLotsOneName : App :=
  { data with
    userData :=
      { parkingLots :=
          [ { id := 1, name := "P", total_slots := 10, available_slots := 5, price_per_hour := 40 },
            { id := 2, name := "P", total_slots := 10, available_slots := 3, price_per_hour := 30 } ]
        reservations := [] } }

/-- A catalog with one lot that has no free slot. -/
def fullLot : App :=
  { data with
    userData :=
      { parkingLots :=
          [ { id := 1, name := "P", total_slots := 10, available_slots := 0, price_per_hour := 40 } ]
        reservations := [] } }

/-- The form of the scenario `create lot(name="X", price=40, total=10)`. -/
def formX : NewLotForm :=
  { name := "X", address := "", pincode := "", price_per_hour := some 40, total_spots := some 10 }

/-- A stand-in for the JSON functions on identities whose strings need no
escaping: `stringify` writes the object text, `parse` reads back the texts of
the identities `admin` and `alice`. -/
def plainJSON : JSON :=
  { stringify := fun user =>
      "\x7b\"username\":\"" ++ user.username ++ "\",\"role\":\"" ++ user.role ++ "\"\x7d"
    parse := fun text =>
      if text = "\x7b\"username\":\"admin\",\"role\":\"admin\"\x7d" then
        some { username := "admin", role := "admin" }
      else if text = "\x7b\"username\":\"alice\",\"role\":\"user\"\x7d" then
        some { username := "alice", role := "user" }
      else none }

/-- The form `X` with a negative number of spots. -/
def formNegativeTotal : NewLotForm :=
  { name := "X", address := "", pincode := "", price_per_hour := some 40, total_spots := some (-5) }

/-- The form `X` with a negative price. -/
def formNegativePrice : NewLotForm :=
  { name := "X", address := "", pincode := "", price_per_hour := some (-5), total_spots := some 10 }

/-- The form `X` without a price. -/
def formNoPrice : NewLotForm :=
  { name := "X", address := "", pincode := "", price_per_hour := none, total_spots := some 10 }

/-- A login form with the given username and password. -/
def withLoginForm (s : App) (username password : String) : App :=
  { s with loginForm := { username := username, password := password } }

/-- A registration form with the given fields. -/
def withRegisterForm (s : App) (username email password confirmPassword : String) : App :=
  { s with
    registerForm :=
      { username := username, email := email, password := password,
        confirmPassword := confirmPassword } }

/-- The empty `localStorage`. -/
def emptyStorage : Storage :=
  { token := none, user := none }

/-- Two lots named `P`, a reservation that names no lot (`Q`) and a
reservation on `P`. -/
def orphanReservation : App :=
  { data with
    userData :=
      { parkingLots :=
          [ { id := 1, name := "P", total_slots := 10, available_slots := 5, price_per_hour := 40 },
            { id := 2, name := "P", total_slots := 10, available_slots := 3, price_per_hour := 30 } ]
        reservations :=
          [ { id := 11, lot_name := "Q", status := "active", cost := 10 },
            { id := 12, lot_name := "P", status := "active", cost := 30 } ] } }

/-- Lower case of a text whose letters are ASCII letters, on which it agrees
with `toLowerCase`. -/
def asciiLower (text : String) : String :=
  String.mk (text.toList.map Char.toLower)

/-- The double that the literal `0.6` denotes, `5404319552844595 / 2^53`. -/
def sixTenths : ℚ :=
  5404319552844595 / 9007199254740992

/-- The form `X` with `2^53` spots. -/
def formTwoPow53 : NewLotForm :=
  { name := "X", address := "", pincode := "", price_per_hour := some 40,
    total_spots := some 9007199254740992 }

/-- The form `X` with `2^54` spots. -/
def formTwoPow54 : NewLotForm :=
  { name := "X", address := "", pincode := "", price_per_hour := some 40,
    total_spots := some 18014398509481984 }

/-! ## Invariants of the admin catalog -/

/-- Every lot of the catalog has `available_spots + occupied_spots ==
total_spots`. -/
def lotsBalanced (a : AdminData) : Prop :=
  ∀ lot ∈ a.parkingLots, lot.available_spots + lot.occupied_spots = lot.total_spots

/-- The stored statistics are the sums of the three counters over the
catalog. -/
def statsAgree (a : AdminData) : Prop :=
  ∃ stats, a.stats = some stats ∧
    stats.total_spots = sumOf (·.total_spots) a.parkingLots ∧
    stats.available_spots = sumOf (·.available_spots) a.parkingLots ∧
    stats.occupied_spots = sumOf (·.occupied_spots) a.parkingLots

/-- Sum of the magnitudes of the totals of the lots of a catalog. -/
def absTotal (lots : List AdminLot) : Nat :=
  (lots.map (fun lot => lot.total_spots.natAbs)).sum

/-- Sum of the magnitudes of the totals submitted to `createParkingLot` by
the actions of a sequence. -/
def submittedTotals : List AdminAction → Nat
  | [] => 0
  | .create form _ :: rest => (Number form.total_spots).natAbs + submittedTotals rest
  | .delete _ _ :: rest => submittedTotals rest

/-- In every lot the available and the occupied count are at most the total
in magnitude. -/
def countersWithin (a : AdminData) : Prop :=
  ∀ lot ∈ a.parkingLots,
    lot.available_spots.natAbs ≤ lot.total_spots.natAbs ∧
    lot.occupied_spots.natAbs ≤ lot.total_spots.natAbs

/-! ## Lemmas on the array helpers -/

theorem findIndex_some {α : Type} (p : α → Bool) (xs : List α) (k : Nat)
    (h : findIndex p xs = some k) : ∃ x, xs[k]? = some x ∧ p x = true := by
  induction xs generalizing k with
  | nil => simp [findIndex] at h
  | cons x xs ih =>
    unfold findIndex at h
    by_cases hp : p x = true
    · simp [hp] at h
      subst h
      exact ⟨x, by simp, hp⟩
    · simp [hp] at h
      obtain ⟨a, ha, rfl⟩ := h
      obtain ⟨y, hy, hpy⟩ := ih a ha
      exact ⟨y, by simpa using hy, hpy⟩

theorem findIndex_first {α : Type} (p : α → Bool) (xs : List α) (i : Nat) (x : α)
    (hx : xs[i]? = some x) (hp : p x = true)
    (hfirst : ∀ k y, k < i → xs[k]? = some y → p y = false) :
    findIndex p xs = some i := by
  induction xs generalizing i with
  | nil => simp at hx
  | cons a xs ih =>
    unfold findIndex
    cases i with
    | zero =>
      simp at hx
      subst hx
      simp [hp]
    | succ i =>
      have ha : p a = false := hfirst 0 a (Nat.succ_pos i) (by simp)
      simp [ha]
      simp at hx
      exact ih i hx (fun k y hk hy => hfirst (k + 1) y (by omega) (by simpa using hy))

theorem getElem?_lt {α : Type} (xs : List α) (i : Nat) (x : α) (h : xs[i]? = some x) :
    i < xs.length := by
  by_contra hlt
  rw [List.getElem?_eq_none (by omega)] at h
  cases h

theorem set_getElem?_self {α : Type} (xs : List α) (i : Nat) (x : α) (h : xs[i]? = some x) :
    xs.set i x = xs := by
  apply List.ext_getElem?
  intro k
  by_cases hk : i = k
  · subst hk
    rw [List.getElem?_set, h]
    simp [getElem?_lt xs i x h]
  · rw [List.getElem?_set_ne hk]

theorem nodup_names_index (lots : List UserLot) (i k : Nat) (L lot : UserLot)
    (hnodup : (lots.map (·.name)).Nodup) (hL : lots[i]? = some L) (hlot : lots[k]? = some lot)
    (hname : lot.name = L.name) : k = i := by
  have hi : i < (lots.map (·.name)).length := by simpa using getElem?_lt lots i L hL
  have hk : k < (lots.map (·.name)).length := by simpa using getElem?_lt lots k lot hlot
  apply (@List.Nodup.getElem_inj_iff _ _ hnodup k hk i hi).1
  have h1 : (lots.map (·.name))[k]? = some lot.name := by simp [hlot]
  have h2 : (lots.map (·.name))[i]? = some L.name := by simp [hL]
  rw [List.getElem?_eq_getElem hk] at h1
  rw [List.getElem?_eq_getElem hi] at h2
  injection h1 with h1
  injection h2 with h2
  rw [h1, h2, hname]

/-! ## Lemmas on booking and release -/

theorem bookParkingSpot_userData (s : App) (now : Int) (i : Nat) (L : UserLot)
    (hsel : s.selectedLot = some i) (hL : s.userData.parkingLots[i]? = some L)
    (hpos : 0 < L.available_slots) :
    (bookParkingSpot s now).userData.parkingLots =
        s.userData.parkingLots.set i { L with available_slots := L.available_slots - 1 } ∧
    (bookParkingSpot s now).userData.reservations =
        { id := now, lot_name := L.name, status := "active", cost := L.price_per_hour } ::
          s.userData.reservations := by
  have h : ¬ L.available_slots ≤ 0 := by omega
  simp [bookParkingSpot, hsel, hL, h, clearMessages, showSuccess]

theorem releaseParkingSpot_userData (s : App) (random : ℚ) (j : Nat) (res : Reservation)
    (hsel : s.selectedReservation = some j) (hres : s.userData.reservations[j]? = some res) :
    (releaseParkingSpot s random).userData.reservations =
        s.userData.reservations.set j { res with status := "completed" } ∧
    (releaseParkingSpot s random).userData.parkingLots =
        (match findIndex (fun lot => lot.name == res.lot_name) s.userData.parkingLots with
          | some k =>
            match s.userData.parkingLots[k]? with
            | some lot =>
              s.userData.parkingLots.set k { lot with available_slots := lot.available_slots + 1 }
            | none => s.userData.parkingLots
          | none => s.userData.parkingLots) ∧
    (releaseParkingSpot s random).success =
        some (releaseMessage (res.cost * durationHours random) (durationHours random)) ∧
    (releaseParkingSpot s random).selectedReservation = none := by
  simp [releaseParkingSpot, hsel, hres, clearMessages, showSuccess]

theorem releaseParkingSpot_parkingLots_first (s : App) (random : ℚ) (i j : Nat) (L : UserLot)
    (res : Reservation)
    (hsel : s.selectedReservation = some j) (hres : s.userData.reservations[j]? = some res)
    (hL : s.userData.parkingLots[i]? = some L) (hname : res.lot_name = L.name)
    (hfirst : ∀ lot ∈ s.userData.parkingLots.take i, lot.name ≠ L.name) :
    (releaseParkingSpot s random).userData.parkingLots =
      s.userData.parkingLots.set i { L with available_slots := L.available_slots + 1 } := by
  have hidx : findIndex (fun lot => lot.name == res.lot_name) s.userData.parkingLots = some i := by
    apply findIndex_first _ _ i L hL
    · simp [hname]
    · intro k lot hk hlot
      have hmem : lot ∈ s.userData.parkingLots.take i :=
        List.getElem?_mem (n := k) (by rw [List.getElem?_take_of_lt hk]; exact hlot)
      simpa [hname] using hfirst lot hmem
  rw [(releaseParkingSpot_userData s random j res hsel hres).2.1, hidx]
  simp [hL]

theorem unitOf_cases (n : Nat) (h : n < 72057594037927936) :
    (n < 9007199254740992 ∧ unitOf n 1024 1 = 1) ∨
    (9007199254740992 ≤ n ∧ n < 18014398509481984 ∧ unitOf n 1024 1 = 2) ∨
    (18014398509481984 ≤ n ∧ n < 36028797018963968 ∧ unitOf n 1024 1 = 4) ∨
    (36028797018963968 ≤ n ∧ unitOf n 1024 1 = 8) := by
  have e : unitOf n 1024 1 =
      if n < 9007199254740992 * 1 then 1
      else if n < 9007199254740992 * (2 * 1) then 2 * 1
      else if n < 9007199254740992 * (2 * (2 * 1)) then 2 * (2 * 1)
      else if n < 9007199254740992 * (2 * (2 * (2 * 1))) then 2 * (2 * (2 * 1))
      else unitOf n 1020 (2 * (2 * (2 * (2 * 1)))) := rfl
  rw [e]
  split_ifs <;> omega

theorem roundToEven_one (n : Nat) : roundToEven n 1 = n := by
  simp only [roundToEven]
  split_ifs <;> omega

theorem roundSignificand_exact (n : Nat) (h : n ≤ 9007199254740992) :
    roundSignificand n = n := by
  unfold roundSignificand
  rcases unitOf_cases n (by omega) with ⟨_, hu⟩ | ⟨h1, _, hu⟩ | ⟨h1, _, _⟩ | ⟨h1, _⟩
  · rw [hu, roundToEven_one]
  · have hn : n = 9007199254740992 := by omega
    subst hn
    decide
  · omega
  · omega

theorem roundSignificand_near (n : Nat) (h : n < 45035996273704960) :
    roundSignificand n ≤ n + 4 := by
  unfold roundSignificand
  rcases unitOf_cases n (by omega) with ⟨_, hu⟩ | ⟨_, _, hu⟩ | ⟨_, _, hu⟩ | ⟨_, hu⟩
  · rw [hu, roundToEven_one]
    omega
  · rw [hu]
    simp only [roundToEven]
    split_ifs <;> omega
  · rw [hu]
    simp only [roundToEven]
    split_ifs <;> omega
  · rw [hu]
    simp only [roundToEven]
    split_ifs <;> omega

theorem toDouble_exact (x : Int) (h : x.natAbs ≤ 9007199254740992) : toDouble x = x := by
  unfold toDouble
  rw [roundSignificand_exact _ h]
  exact Int.sign_mul_natAbs x

theorem durationHours_bounds (random : ℚ) (h : isRandomDraw random) :
    1 ≤ durationHours random ∧ durationHours random ≤ 5 := by
  obtain ⟨h0, h1, hm, -⟩ := h
  have hnum : 0 ≤ random.num := Rat.num_nonneg.2 h0
  have hlt : random.num < random.den := Rat.lt_one_iff_num_lt_denom.1 h1
  have hlt2 : random.num.natAbs < random.den := by omega
  have hR := roundSignificand_near (random.num.natAbs * 5) (by omega)
  have hdiv : roundSignificand (random.num.natAbs * 5) / random.den < 5 := by
    rw [Nat.div_lt_iff_lt_mul random.den_pos]
    omega
  unfold durationHours
  have hnat : roundSignificand (random.num.natAbs * 5) / random.den ≤ 4 := by omega
  have hcast : ((roundSignificand (random.num.natAbs * 5) / random.den : Nat) : Int) ≤ 4 := by
    exact_mod_cast hnat
  have hpos : (0 : Int) ≤ ((roundSignificand (random.num.natAbs * 5) / random.den : Nat) : Int) :=
    Int.natCast_nonneg _
  constructor
  · linarith
  · linarith

/-! ## Booking -/

/-- Claim C1: when the selected lot has `available_slots <= 0`, demo-mode
`bookParkingSpot` leaves `userData` (reservations and every lot) as it was and
only clears the success message and sets the error message
`No slots available in this parking lot`. -/
theorem bookParkingSpot_no_slots (s : App) (now : Int) (i : Nat) (L : UserLot)
    (hsel : s.selectedLot = some i) (hL : s.userData.parkingLots[i]? = some L)
    (hfull : L.available_slots ≤ 0) :
    (bookParkingSpot s now).userData.reservations = s.userData.reservations ∧
    (bookParkingSpot s now).userData.parkingLots = s.userData.parkingLots ∧
    (bookParkingSpot s now).error = some "No slots available in this parking lot" ∧
    bookParkingSpot s now =
      { s with error := some "No slots available in this parking lot", success := none } := by
  simp [bookParkingSpot, hsel, hL, hfull, clearMessages, showError]

/-- Instance on a catalog with one full lot: nothing is booked. -/
theorem bookParkingSpot_no_slots_witness :
    (bookParkingSpot (confirmBooking fullLot 0) 7).userData.reservations = [] ∧
    (bookParkingSpot (confirmBooking fullLot 0) 7).userData.parkingLots =
      [ { id := 1, name := "P", total_slots := 10, available_slots := 0, price_per_hour := 40 } ] ∧
    (bookParkingSpot (confirmBooking fullLot 0) 7).error =
      some "No slots available in this parking lot" :=
  have h := bookParkingSpot_no_slots (confirmBooking fullLot 0) 7 0
    { id := 1, name := "P", total_slots := 10, available_slots := 0, price_per_hour := 40 }
    rfl rfl (by decide)
  ⟨h.1, h.2.1, h.2.2.1⟩

/-- Claim C2: when the selected lot `L` has `available_slots > 0`, demo-mode
`bookParkingSpot` replaces `L` by `L` with `available_slots` decreased by 1
and puts one new reservation (status `active`, cost `L.price_per_hour`,
lot_name `L.name`) in front of the reservations held before, which follow
unchanged and in their order. -/
theorem bookParkingSpot_books (s : App) (now : Int) (i : Nat) (L : UserLot)
    (hsel : s.selectedLot = some i) (hL : s.userData.parkingLots[i]? = some L)
    (hpos : 0 < L.available_slots) :
    (bookParkingSpot s now).userData.parkingLots[i]? =
        some { L with available_slots := L.available_slots - 1 } ∧
    (bookParkingSpot s now).userData.parkingLots =
        s.userData.parkingLots.set i { L with available_slots := L.available_slots - 1 } ∧
    (bookParkingSpot s now).userData.reservations =
        { id := now, lot_name := L.name, status := "active", cost := L.price_per_hour } ::
          s.userData.reservations := by
  have h := bookParkingSpot_userData s now i L hsel hL hpos
  refine ⟨?_, h.1, h.2⟩
  rw [h.1, List.getElem?_set]
  simp [getElem?_lt _ i L hL]

/-- Instance on the demo data: booking on `City Center Parking` (18 free). -/
theorem bookParkingSpot_books_witness :
    (bookParkingSpot (confirmBooking (loadUserDashboard data) 0) 7).userData.parkingLots[0]? =
        some { id := 1, name := "City Center Parking", total_slots := 50, available_slots := 17,
               price_per_hour := 40 } ∧
    (bookParkingSpot (confirmBooking (loadUserDashboard data) 0) 7).userData.reservations =
        { id := 7, lot_name := "City Center Parking", status := "active", cost := 40 } ::
          (loadUserDashboard data).userData.reservations :=
  have h := bookParkingSpot_books (confirmBooking (loadUserDashboard data) 0) 7 0
    { id := 1, name := "City Center Parking", total_slots := 50, available_slots := 18,
      price_per_hour := 40 }
    rfl rfl (by decide)
  ⟨h.1, h.2.2⟩

/-! ## Release -/

/-- Claim C3, as stated, fails when two lots share a name: a spot is booked on
the second lot named `P` (3 free, then 2) and the reservation is released; the
second lot still has 2 free slots and the first lot named `P` went from 5
to 6. -/
theorem releaseParkingSpot_shared_name_counterexample :
    (bookParkingSpot (confirmBooking twoLotsOneName 1) 7).userData.parkingLots.map
        (·.available_slots) = [5, 2] ∧
    (bookParkingSpot (confirmBooking twoLotsOneName 1) 7).userData.reservations =
        [ { id := 7, lot_name := "P", status := "active", cost := 30 } ] ∧
    (releaseParkingSpot
        { bookParkingSpot (confirmBooking twoLotsOneName 1) 7 with selectedReservation := some 0 }
        (1 / 2)).userData.parkingLots.map (·.available_slots) = [6, 2] ∧
    ¬ ((releaseParkingSpot
          { bookParkingSpot (confirmBooking twoLotsOneName 1) 7 with selectedReservation := some 0 }
          (1 / 2)).userData.parkingLots[1]?.map (·.available_slots) =
        (bookParkingSpot (confirmBooking twoLotsOneName 1) 7).userData.parkingLots[1]?.map
          (·.available_slots + 1)) := by
  decide

/-- Claim C3, amended: when no lot before `L` in list order has the name of
`L`, demo-mode `releaseParkingSpot` of a selected reservation whose `lot_name`
is the name of `L` sets the reservation's status to `completed`, increases
`L.available_slots` by exactly 1 and leaves every other lot as it was. -/
theorem releaseParkingSpot_releases (s : App) (random : ℚ) (i j : Nat) (L : UserLot)
    (res : Reservation)
    (hsel : s.selectedReservation = some j) (hres : s.userData.reservations[j]? = some res)
    (hL : s.userData.parkingLots[i]? = some L) (hname : res.lot_name = L.name)
    (hfirst : ∀ lot ∈ s.userData.parkingLots.take i, lot.name ≠ L.name) :
    (releaseParkingSpot s random).userData.reservations[j]? =
        some { res with status := "completed" } ∧
    (releaseParkingSpot s random).userData.parkingLots[i]? =
        some { L with available_slots := L.available_slots + 1 } ∧
    ∀ k, k ≠ i →
      (releaseParkingSpot s random).userData.parkingLots[k]? = s.userData.parkingLots[k]? := by
  have hr := (releaseParkingSpot_userData s random j res hsel hres).1
  have hl := releaseParkingSpot_parkingLots_first s random i j L res hsel hres hL hname hfirst
  refine ⟨?_, ?_, ?_⟩
  · rw [hr, List.getElem?_set]
    simp [getElem?_lt _ j res hres]
  · rw [hl, List.getElem?_set]
    simp [getElem?_lt _ i L hL]
  · intro k hk
    rw [hl, List.getElem?_set_ne (Ne.symm hk)]

/-- Instance on the demo data: a spot booked on `Mall Parking` is released. -/
theorem releaseParkingSpot_releases_witness :
    (releaseParkingSpot
        { bookParkingSpot (confirmBooking (loadUserDashboard data) 1) 7 with
          selectedReservation := some 0 }
        (1 / 2)).userData.reservations[0]? =
      some { id := 7, lot_name := "Mall Parking", status := "completed", cost := 30 } ∧
    (releaseParkingSpot
        { bookParkingSpot (confirmBooking (loadUserDashboard data) 1) 7 with
          selectedReservation := some 0 }
        (1 / 2)).userData.parkingLots[1]? =
      some { id := 2, name := "Mall Parking", total_slots := 80, available_slots := 41 + 1,
             price_per_hour := 30 } :=
  have h := releaseParkingSpot_releases
    { bookParkingSpot (confirmBooking (loadUserDashboard data) 1) 7 with
      selectedReservation := some 0 }
    (1 / 2) 1 0
    { id := 2, name := "Mall Parking", total_slots := 80, available_slots := 41,
      price_per_hour := 30 }
    { id := 7, lot_name := "Mall Parking", status := "active", cost := 30 }
    rfl rfl rfl rfl (by decide)
  ⟨h.1, h.2.1⟩

/-- Claim C4, as stated, fails: reservation 102 of the demo data is already
`completed`; releasing it again adds 1 to the free slots of `Mall Parking`
(42 becomes 43). -/
theorem releaseParkingSpot_completed_counterexample :
    (loadUserDashboard data).userData.reservations[1]? =
        some { id := 102, lot_name := "Mall Parking", status := "completed", cost := 90 } ∧
    (loadUserDashboard data).userData.parkingLots.map (·.available_slots) = [18, 42, 65] ∧
    (releaseParkingSpot { loadUserDashboard data with selectedReservation := some 1 }
        (1 / 2)).userData.parkingLots.map (·.available_slots) = [18, 43, 65] ∧
    ¬ ((releaseParkingSpot { loadUserDashboard data with selectedReservation := some 1 }
          (1 / 2)).userData.parkingLots = (loadUserDashboard data).userData.parkingLots) := by
  decide

/-- Claim C4, amended: demo-mode `releaseParkingSpot` clears the selection, so
a second call that follows without a new selection changes nothing and the
free slots are increased only once; and releasing a selected reservation
whose status is already `completed` leaves every reservation as it was. -/
theorem releaseParkingSpot_twice (s : App) (random random2 : ℚ) (j : Nat) (res : Reservation)
    (hsel : s.selectedReservation = some j) (hres : s.userData.reservations[j]? = some res) :
    (releaseParkingSpot s random).selectedReservation = none ∧
    releaseParkingSpot (releaseParkingSpot s random) random2 = releaseParkingSpot s random ∧
    (res.status = "completed" →
      (releaseParkingSpot s random).userData.reservations = s.userData.reservations) := by
  have h := releaseParkingSpot_userData s random j res hsel hres
  refine ⟨h.2.2.2, ?_, ?_⟩
  · generalize releaseParkingSpot s random = t at h
    simp [releaseParkingSpot, h.2.2.2]
  · intro hc
    rw [h.1]
    apply set_getElem?_self
    rw [hres, ← hc]

/-- Instance on the demo data with the completed reservation 102 selected. -/
theorem releaseParkingSpot_twice_witness :
    (releaseParkingSpot { loadUserDashboard data with selectedReservation := some 1 }
        (1 / 2)).selectedReservation = none ∧
    releaseParkingSpot
        (releaseParkingSpot { loadUserDashboard data with selectedReservation := some 1 } (1 / 2))
        (3 / 4) =
      releaseParkingSpot { loadUserDashboard data with selectedReservation := some 1 } (1 / 2) ∧
    (releaseParkingSpot { loadUserDashboard data with selectedReservation := some 1 }
        (1 / 2)).userData.reservations = (loadUserDashboard data).userData.reservations :=
  have h := releaseParkingSpot_twice
    { loadUserDashboard data with selectedReservation := some 1 } (1 / 2) (3 / 4) 1
    { id := 102, lot_name := "Mall Parking", status := "completed", cost := 90 } rfl rfl
  ⟨h.1, h.2.1, h.2.2 rfl⟩

/-- Claim C5: in a catalog whose lot names are pairwise distinct, booking a
spot on a lot `L` with `available_slots > 0` and `price_per_hour > 0` and then
releasing the reservation just created gives back the list of lots of before
the booking (every available count restored) and leaves that reservation at
the head of the list with status `completed` and a cost `> 0`. -/
theorem book_then_release (s : App) (now : Int) (random : ℚ) (i : Nat) (L : UserLot)
    (hnodup : (s.userData.parkingLots.map (·.name)).Nodup)
    (hsel : s.selectedLot = some i) (hL : s.userData.parkingLots[i]? = some L)
    (hpos : 0 < L.available_slots) (hprice : 0 < L.price_per_hour) :
    (releaseParkingSpot { bookParkingSpot s now with selectedReservation := some 0 }
        random).userData.parkingLots = s.userData.parkingLots ∧
    (releaseParkingSpot { bookParkingSpot s now with selectedReservation := some 0 }
        random).userData.reservations =
      { id := now, lot_name := L.name, status := "completed", cost := L.price_per_hour } ::
        s.userData.reservations ∧
    ∃ res,
      (releaseParkingSpot { bookParkingSpot s now with selectedReservation := some 0 }
          random).userData.reservations[0]? = some res ∧
      res.status = "completed" ∧ 0 < res.cost := by
  have hb := bookParkingSpot_userData s now i L hsel hL hpos
  have hi := getElem?_lt _ i L hL
  have hres : ({ bookParkingSpot s now with selectedReservation := some 0 } :
      App).userData.reservations[0]? =
      some { id := now, lot_name := L.name, status := "active", cost := L.price_per_hour } := by
    simp [hb.2]
  have hL1 : ({ bookParkingSpot s now with selectedReservation := some 0 } :
      App).userData.parkingLots[i]? =
      some { L with available_slots := L.available_slots - 1 } := by
    simp [hb.1, List.getElem?_set, hi]
  have hfirst : ∀ lot ∈ ({ bookParkingSpot s now with selectedReservation := some 0 } :
      App).userData.parkingLots.take i, lot.name ≠ L.name := by
    intro lot hmem hname
    obtain ⟨k, hk⟩ := List.getElem?_of_mem hmem
    have hki : k < i := by
      by_contra hge
      rw [List.getElem?_take_eq_none (by omega)] at hk
      cases hk
    rw [List.getElem?_take_of_lt hki] at hk
    have hk2 : s.userData.parkingLots[k]? = some lot := by
      simpa [hb.1, List.getElem?_set_ne (Nat.ne_of_gt hki)] using hk
    have := nodup_names_index _ i k L lot hnodup hL hk2 hname
    omega
  have hl := releaseParkingSpot_parkingLots_first
    { bookParkingSpot s now with selectedReservation := some 0 } random i 0
    { L with available_slots := L.available_slots - 1 }
    { id := now, lot_name := L.name, status := "active", cost := L.price_per_hour }
    rfl hres hL1 rfl hfirst
  have hr := (releaseParkingSpot_userData
    { bookParkingSpot s now with selectedReservation := some 0 } random 0
    { id := now, lot_name := L.name, status := "active", cost := L.price_per_hour }
    rfl hres).1
  have hr2 : (releaseParkingSpot { bookParkingSpot s now with selectedReservation := some 0 }
        random).userData.reservations =
      { id := now, lot_name := L.name, status := "completed", cost := L.price_per_hour } ::
        s.userData.reservations := by
    rw [hr]
    simp [hb.2]
  refine ⟨?_, hr2, ?_⟩
  · rw [hl]
    simp only [hb.1, List.set_set, Int.sub_add_cancel]
    exact set_getElem?_self _ i L hL
  · exact ⟨{ id := now, lot_name := L.name, status := "completed", cost := L.price_per_hour },
      by rw [hr2]; simp, rfl, hprice⟩

/-- Instance on the demo lot with total 50 and 18 free: 17 after the booking, 18 after the release. -/
theorem book_then_release_witness :
    (bookParkingSpot (confirmBooking (loadUserDashboard data) 0) 7).userData.parkingLots.map
        (fun lot => (lot.total_slots, lot.available_slots)) = [(50, 17), (80, 42), (120, 65)] ∧
    (releaseParkingSpot
        { bookParkingSpot (confirmBooking (loadUserDashboard data) 0) 7 with
          selectedReservation := some 0 }
        (1 / 2)).userData.parkingLots.map
        (fun lot => (lot.total_slots, lot.available_slots)) = [(50, 18), (80, 42), (120, 65)] ∧
    (releaseParkingSpot
        { bookParkingSpot (confirmBooking (loadUserDashboard data) 0) 7 with
          selectedReservation := some 0 }
        (1 / 2)).userData.reservations[0]? =
      some { id := 7, lot_name := "City Center Parking", status := "completed", cost := 40 } :=
  have h := book_then_release (confirmBooking (loadUserDashboard data) 0) 7 (1 / 2) 0
    { id := 1, name := "City Center Parking", total_slots := 50, available_slots := 18,
      price_per_hour := 40 }
    (by decide) rfl rfl (by decide) (by decide)
  ⟨by decide, by rw [h.1]; decide, by rw [h.2.1]; rfl⟩

theorem releaseMessage_text (parkingCost hours : Int) :
    releaseMessage parkingCost hours =
      "Spot released! Cost: â‚¹" ++ toString parkingCost ++ " for " ++ toString hours ++
        " hours (Demo Mode)" := by
  simp only [releaseMessage, toString, String.append_empty, String.append_assoc]

theorem isRandomDraw_sixTenths : isRandomDraw sixTenths := by
  have hnum : sixTenths.num = 5404319552844595 := by
    unfold sixTenths
    norm_num
  have hden : sixTenths.den = 9007199254740992 := by
    unfold sixTenths
    norm_num
  refine ⟨?_, ?_, ?_, 53, by decide, ?_⟩
  · unfold sixTenths
    norm_num
  · unfold sixTenths
    norm_num
  · rw [hnum]
    decide
  · rw [hden]
    decide

theorem durationHours_sixTenths : durationHours sixTenths = 4 := by
  have hnum : sixTenths.num = 5404319552844595 := by
    unfold sixTenths
    norm_num
  have hden : sixTenths.den = 9007199254740992 := by
    unfold sixTenths
    norm_num
  unfold durationHours
  rw [hnum, hden]
  decide

theorem durationHours_half : durationHours (1 / 2) = 3 := by
  have hnum : ((1 : ℚ) / 2).num = 1 := by norm_num
  have hden : ((1 : ℚ) / 2).den = 2 := by norm_num
  unfold durationHours
  rw [hnum, hden]
  decide

/-- Claim C6: for every draw of `Math.random()`, a double `0 <= random < 1`,
the duration `Math.floor(random * 5) + 1` that demo-mode `releaseParkingSpot`
computes is an integer between 1 and 5, and the success message reports the
selected reservation's cost multiplied by that duration, for that number of
hours. -/
theorem releaseParkingSpot_reports (s : App) (random : ℚ) (j : Nat) (res : Reservation)
    (hsel : s.selectedReservation = some j) (hres : s.userData.reservations[j]? = some res)
    (hdraw : isRandomDraw random) :
    1 ≤ durationHours random ∧ durationHours random ≤ 5 ∧
    (releaseParkingSpot s random).success =
      some ("Spot released! Cost: â‚¹" ++ toString (res.cost * durationHours random) ++
        " for " ++ toString (durationHours random) ++ " hours (Demo Mode)") := by
  have hb := durationHours_bounds random hdraw
  refine ⟨hb.1, hb.2, ?_⟩
  rw [(releaseParkingSpot_userData s random j res hsel hres).2.2.1, releaseMessage_text]

/-- Instance on the demo data: reservation 101 (cost 120) released with the
draw `0.6`, whose product by 5 is the double 3: four hours, 480. -/
theorem releaseParkingSpot_reports_witness :
    durationHours sixTenths = 4 ∧
    (releaseParkingSpot { loadUserDashboard data with selectedReservation := some 0 }
        sixTenths).success = some "Spot released! Cost: â‚¹480 for 4 hours (Demo Mode)" := by
  have h := releaseParkingSpot_reports
    { loadUserDashboard data with selectedReservation := some 0 } sixTenths 0
    { id := 101, lot_name := "City Center Parking", status := "active", cost := 120 }
    rfl rfl isRandomDraw_sixTenths
  refine ⟨durationHours_sixTenths, ?_⟩
  rw [h.2.2, durationHours_sixTenths]
  decide

/-- Claim C7 fails on the code: reservation 101 of the demo data has cost
120; released with the draw `0.6` the message reports 480 for 4 hours, but the
stored cost is still 120, and this 120 is what the list of completed
reservations and the spending chart show for it. -/
theorem releaseParkingSpot_cost_not_stored :
    (loadUserDashboard data).userData.reservations[0]? =
      some { id := 101, lot_name := "City Center Parking", status := "active", cost := 120 } ∧
    (releaseParkingSpot { loadUserDashboard data with selectedReservation := some 0 }
        sixTenths).success = some "Spot released! Cost: â‚¹480 for 4 hours (Demo Mode)" ∧
    (releaseParkingSpot { loadUserDashboard data with selectedReservation := some 0 }
        sixTenths).userData.reservations[0]? =
      some { id := 101, lot_name := "City Center Parking", status := "completed", cost := 120 } ∧
    (completedReservations
        (releaseParkingSpot { loadUserDashboard data with selectedReservation := some 0 }
          sixTenths)).map (·.cost) = [120, 90, 180] ∧
    renderUserSpendingChart
        (releaseParkingSpot { loadUserDashboard data with selectedReservation := some 0 }
          sixTenths).userData.reservations =
      some (["City Center Parking", "Mall Parking", "Airport Parking"],
        [.number 120, .number 90, .number 180]) := by
  refine ⟨by decide, ?_, by decide, by decide, by decide⟩
  rw [(releaseParkingSpot_userData
    { loadUserDashboard data with selectedReservation := some 0 } sixTenths 0
    { id := 101, lot_name := "City Center Parking", status := "active", cost := 120 }
    rfl rfl).2.2.1, durationHours_sixTenths]
  decide

/-! ## Admin catalog and statistics -/

theorem sumOf_append (f : AdminLot → Int) (lots : List AdminLot) (lot : AdminLot) :
    sumOf f (lots ++ [lot]) = sumOf f lots + f lot := by
  simp [sumOf]

theorem sumOf_eraseIdx (f : AdminLot → Int) (lots : List AdminLot) (k : Nat) (lot : AdminLot)
    (h : lots[k]? = some lot) : sumOf f (lots.eraseIdx k) = sumOf f lots - f lot := by
  induction lots generalizing k with
  | nil => simp at h
  | cons a lots ih =>
    cases k with
    | zero =>
      simp at h
      subst h
      simp [sumOf]
    | succ k =>
      simp at h
      have := ih k h
      simp only [sumOf, List.eraseIdx_cons_succ, List.map_cons, List.sum_cons] at this ⊢
      omega

theorem sumOf_balanced (lots : List AdminLot)
    (h : ∀ lot ∈ lots, lot.available_spots + lot.occupied_spots = lot.total_spots) :
    sumOf (·.available_spots) lots + sumOf (·.occupied_spots) lots =
      sumOf (·.total_spots) lots := by
  induction lots with
  | nil => simp [sumOf]
  | cons a lots ih =>
    have ha := h a (List.mem_cons_self a lots)
    have := ih (fun lot hlot => h lot (List.mem_cons_of_mem a hlot))
    simp only [sumOf, List.map_cons, List.sum_cons] at this ⊢
    omega

theorem loadAdminDashboard_invariant (s : App) :
    lotsBalanced (loadAdminDashboard s).adminData ∧ statsAgree (loadAdminDashboard s).adminData := by
  constructor
  · intro lot hlot
    simp [loadAdminDashboard] at hlot
    rcases hlot with rfl | rfl | rfl <;> rfl
  · exact ⟨_, rfl, rfl, rfl, rfl⟩

theorem createParkingLot_adminData (s : App) (now : Int) (stats : Stats)
    (hstats : s.adminData.stats = some stats) :
    (createParkingLot s now).adminData = s.adminData ∨
    ∃ newLot : AdminLot,
      newLot.available_spots = newLot.total_spots ∧ newLot.occupied_spots = 0 ∧
      (createParkingLot s now).adminData =
        { s.adminData with
          stats := some
            { stats with
              total_spots := toDouble (stats.total_spots + newLot.total_spots)
              available_spots := toDouble (stats.available_spots + newLot.total_spots) }
          parkingLots := s.adminData.parkingLots ++ [newLot] } := by
  by_cases h : s.newLotForm.name = "" ∨ truthyNumber s.newLotForm.price_per_hour = false ∨
      truthyNumber s.newLotForm.total_spots = false
  · left
    simp [createParkingLot, clearMessages, showError, h]
  · right
    refine ⟨{ id := now
              name := s.newLotForm.name
              address := some (orDefault s.newLotForm.address "Demo Address")
              pincode := some (orDefault s.newLotForm.pincode "000000")
              price_per_hour := some (Number s.newLotForm.price_per_hour)
              total_spots := Number s.newLotForm.total_spots
              available_spots := Number s.newLotForm.total_spots
              occupied_spots := 0 }, rfl, rfl, ?_⟩
    simp only [createParkingLot, clearMessages, showSuccess, h, hstats, if_false]

theorem deleteParkingLot_adminData (s : App) (lotId : Int) (confirmed : Bool) (stats : Stats)
    (hstats : s.adminData.stats = some stats) :
    (deleteParkingLot s lotId confirmed).adminData = s.adminData ∨
    ∃ lotIndex lot, s.adminData.parkingLots[lotIndex]? = some lot ∧
      (deleteParkingLot s lotId confirmed).adminData =
        { s.adminData with
          stats := some
            { stats with
              total_spots := toDouble (stats.total_spots - lot.total_spots)
              available_spots := toDouble (stats.available_spots - lot.available_spots)
              occupied_spots := toDouble (stats.occupied_spots - lot.occupied_spots) }
          parkingLots := s.adminData.parkingLots.eraseIdx lotIndex } := by
  cases confirmed with
  | false => left; simp [deleteParkingLot]
  | true =>
    cases hidx : findIndex (fun lot => lot.id == lotId) s.adminData.parkingLots with
    | none => left; simp [deleteParkingLot, clearMessages, showError, hidx]
    | some lotIndex =>
      obtain ⟨lot, hlot, -⟩ := findIndex_some _ _ _ hidx
      right
      refine ⟨lotIndex, lot, hlot, ?_⟩
      simp [deleteParkingLot, clearMessages, showSuccess, hidx, hlot, hstats]

theorem createParkingLot_balanced (s : App) (now : Int)
    (h : lotsBalanced s.adminData ∧ ∃ stats, s.adminData.stats = some stats) :
    lotsBalanced (createParkingLot s now).adminData ∧
      ∃ stats, (createParkingLot s now).adminData.stats = some stats := by
  obtain ⟨hbal, stats, hstats⟩ := h
  rcases createParkingLot_adminData s now stats hstats with hsame | ⟨newLot, hav, hocc, hnew⟩
  · rw [hsame]
    exact ⟨hbal, stats, hstats⟩
  · rw [hnew]
    refine ⟨?_, _, rfl⟩
    intro lot hlot
    simp only [List.mem_append, List.mem_singleton] at hlot
    rcases hlot with hlot | rfl
    · exact hbal lot hlot
    · rw [hav, hocc]
      simp

theorem deleteParkingLot_balanced (s : App) (lotId : Int) (confirmed : Bool)
    (h : lotsBalanced s.adminData ∧ ∃ stats, s.adminData.stats = some stats) :
    lotsBalanced (deleteParkingLot s lotId confirmed).adminData ∧
      ∃ stats, (deleteParkingLot s lotId confirmed).adminData.stats = some stats := by
  obtain ⟨hbal, stats, hstats⟩ := h
  rcases deleteParkingLot_adminData s lotId confirmed stats hstats with
    hsame | ⟨lotIndex, lot, hlot, hnew⟩
  · rw [hsame]
    exact ⟨hbal, stats, hstats⟩
  · rw [hnew]
    refine ⟨?_, _, rfl⟩
    intro l hl
    exact hbal l (List.mem_of_mem_eraseIdx hl)

theorem foldl_run_balanced (actions : List AdminAction) (s : App)
    (h : lotsBalanced s.adminData ∧ ∃ stats, s.adminData.stats = some stats) :
    lotsBalanced (actions.foldl AdminAction.run s).adminData ∧
      ∃ stats, (actions.foldl AdminAction.run s).adminData.stats = some stats := by
  induction actions generalizing s with
  | nil => exact h
  | cons a actions ih =>
    apply ih
    cases a with
    | create form now => exact createParkingLot_balanced { s with newLotForm := form } now h
    | delete lotId confirmed => exact deleteParkingLot_balanced s lotId confirmed h

theorem natAbs_sumOf_le (f : AdminLot → Int) (lots : List AdminLot)
    (h : ∀ lot ∈ lots, (f lot).natAbs ≤ lot.total_spots.natAbs) :
    (sumOf f lots).natAbs ≤ absTotal lots := by
  induction lots with
  | nil => simp [sumOf, absTotal]
  | cons a lots ih =>
    have ha := h a (List.mem_cons_self a lots)
    have := ih (fun lot hlot => h lot (List.mem_cons_of_mem a hlot))
    simp only [sumOf, absTotal, List.map_cons, List.sum_cons] at this ⊢
    omega

theorem absTotal_append (lots : List AdminLot) (lot : AdminLot) :
    absTotal (lots ++ [lot]) = absTotal lots + lot.total_spots.natAbs := by
  simp [absTotal]

theorem absTotal_eraseIdx_le (lots : List AdminLot) (k : Nat) :
    absTotal (lots.eraseIdx k) ≤ absTotal lots := by
  induction lots generalizing k with
  | nil => simp
  | cons a lots ih =>
    cases k with
    | zero =>
      simp only [List.eraseIdx_cons_zero, absTotal, List.map_cons, List.sum_cons]
      omega
    | succ k =>
      have := ih k
      simp only [List.eraseIdx_cons_succ, absTotal, List.map_cons, List.sum_cons] at this ⊢
      omega

theorem createParkingLot_invariant (s : App) (now : Int)
    (hbound : absTotal s.adminData.parkingLots + (Number s.newLotForm.total_spots).natAbs ≤
      9007199254740992)
    (h : lotsBalanced s.adminData ∧ statsAgree s.adminData ∧ countersWithin s.adminData) :
    lotsBalanced (createParkingLot s now).adminData ∧
      statsAgree (createParkingLot s now).adminData ∧
      countersWithin (createParkingLot s now).adminData ∧
      absTotal (createParkingLot s now).adminData.parkingLots ≤
        absTotal s.adminData.parkingLots + (Number s.newLotForm.total_spots).natAbs := by
  obtain ⟨hbal, ⟨stats, hstats, ht, ha, ho⟩, hwithin⟩ := h
  by_cases hform : s.newLotForm.name = "" ∨ truthyNumber s.newLotForm.price_per_hour = false ∨
      truthyNumber s.newLotForm.total_spots = false
  · have hsame : createParkingLot s now =
        { s with error := some "Please fill all required fields", success := none } := by
      simp [createParkingLot, clearMessages, showError, hform]
    rw [hsame]
    exact ⟨hbal, ⟨stats, hstats, ht, ha, ho⟩, hwithin, Nat.le_add_right _ _⟩
  · have hnew : (createParkingLot s now).adminData =
        { s.adminData with
          stats := some
            { stats with
              total_spots := toDouble (stats.total_spots + Number s.newLotForm.total_spots)
              available_spots :=
                toDouble (stats.available_spots + Number s.newLotForm.total_spots) }
          parkingLots := s.adminData.parkingLots ++
            [ { id := now
                name := s.newLotForm.name
                address := some (orDefault s.newLotForm.address "Demo Address")
                pincode := some (orDefault s.newLotForm.pincode "000000")
                price_per_hour := some (Number s.newLotForm.price_per_hour)
                total_spots := Number s.newLotForm.total_spots
                available_spots := Number s.newLotForm.total_spots
                occupied_spots := 0 } ] } := by
      simp only [createParkingLot, clearMessages, showSuccess, hform, hstats, if_false]
    have h1 := natAbs_sumOf_le (·.total_spots) s.adminData.parkingLots (fun lot _ => le_refl _)
    have h2 := natAbs_sumOf_le (·.available_spots) s.adminData.parkingLots
      (fun lot hlot => (hwithin lot hlot).1)
    have et : toDouble (stats.total_spots + Number s.newLotForm.total_spots) =
        stats.total_spots + Number s.newLotForm.total_spots :=
      toDouble_exact _ (by rw [ht]; omega)
    have ea : toDouble (stats.available_spots + Number s.newLotForm.total_spots) =
        stats.available_spots + Number s.newLotForm.total_spots :=
      toDouble_exact _ (by rw [ha]; omega)
    rw [hnew, et, ea]
    refine ⟨?_, ⟨_, rfl, ?_, ?_, ?_⟩, ?_, ?_⟩
    · intro lot hlot
      simp only [List.mem_append, List.mem_singleton] at hlot
      rcases hlot with hlot | rfl
      · exact hbal lot hlot
      · simp
    · simp only [sumOf_append, ht]
    · simp only [sumOf_append, ha]
    · simp only [sumOf_append, ho]
      simp
    · intro lot hlot
      simp only [List.mem_append, List.mem_singleton] at hlot
      rcases hlot with hlot | rfl
      · exact hwithin lot hlot
      · simp
    · rw [absTotal_append]

theorem deleteParkingLot_invariant (s : App) (lotId : Int) (confirmed : Bool)
    (hbound : absTotal s.adminData.parkingLots ≤ 9007199254740992)
    (h : lotsBalanced s.adminData ∧ statsAgree s.adminData ∧ countersWithin s.adminData) :
    lotsBalanced (deleteParkingLot s lotId confirmed).adminData ∧
      statsAgree (deleteParkingLot s lotId confirmed).adminData ∧
      countersWithin (deleteParkingLot s lotId confirmed).adminData ∧
      absTotal (deleteParkingLot s lotId confirmed).adminData.parkingLots ≤
        absTotal s.adminData.parkingLots := by
  obtain ⟨hbal, ⟨stats, hstats, ht, ha, ho⟩, hwithin⟩ := h
  rcases deleteParkingLot_adminData s lotId confirmed stats hstats with
    hsame | ⟨lotIndex, lot, hlot, hnew⟩
  · rw [hsame]
    exact ⟨hbal, ⟨stats, hstats, ht, ha, ho⟩, hwithin, le_refl _⟩
  · have hle := absTotal_eraseIdx_le s.adminData.parkingLots lotIndex
    have hw2 : ∀ l ∈ s.adminData.parkingLots.eraseIdx lotIndex,
        l.available_spots.natAbs ≤ l.total_spots.natAbs ∧
        l.occupied_spots.natAbs ≤ l.total_spots.natAbs :=
      fun l hl => hwithin l (List.mem_of_mem_eraseIdx hl)
    have h1 := natAbs_sumOf_le (·.total_spots) (s.adminData.parkingLots.eraseIdx lotIndex)
      (fun lot _ => le_refl _)
    have h2 := natAbs_sumOf_le (·.available_spots) (s.adminData.parkingLots.eraseIdx lotIndex)
      (fun l hl => (hw2 l hl).1)
    have h3 := natAbs_sumOf_le (·.occupied_spots) (s.adminData.parkingLots.eraseIdx lotIndex)
      (fun l hl => (hw2 l hl).2)
    rw [sumOf_eraseIdx _ _ _ _ hlot] at h1 h2 h3
    have et : toDouble (stats.total_spots - lot.total_spots) =
        stats.total_spots - lot.total_spots :=
      toDouble_exact _ (by rw [ht]; omega)
    have ea : toDouble (stats.available_spots - lot.available_spots) =
        stats.available_spots - lot.available_spots :=
      toDouble_exact _ (by rw [ha]; omega)
    have eo : toDouble (stats.occupied_spots - lot.occupied_spots) =
        stats.occupied_spots - lot.occupied_spots :=
      toDouble_exact _ (by rw [ho]; omega)
    rw [hnew, et, ea, eo]
    refine ⟨?_, ⟨_, rfl, ?_, ?_, ?_⟩, hw2, hle⟩
    · intro l hl
      exact hbal l (List.mem_of_mem_eraseIdx hl)
    · simp only [sumOf_eraseIdx _ _ _ _ hlot, ht]
    · simp only [sumOf_eraseIdx _ _ _ _ hlot, ha]
    · simp only [sumOf_eraseIdx _ _ _ _ hlot, ho]

theorem foldl_run_invariant (actions : List AdminAction) (s : App)
    (hbound : absTotal s.adminData.parkingLots + submittedTotals actions ≤ 9007199254740992)
    (h : lotsBalanced s.adminData ∧ statsAgree s.adminData ∧ countersWithin s.adminData) :
    statsAgree (actions.foldl AdminAction.run s).adminData := by
  induction actions generalizing s with
  | nil => exact h.2.1
  | cons a actions ih =>
    cases a with
    | create form now =>
      simp only [submittedTotals] at hbound
      have hstep := createParkingLot_invariant { s with newLotForm := form } now
        (by simp only []; omega) h
      simp only [List.foldl_cons, AdminAction.run]
      apply ih
      · have := hstep.2.2.2
        simp only [] at this
        omega
      · exact ⟨hstep.1, hstep.2.1, hstep.2.2.1⟩
    | delete lotId confirmed =>
      simp only [submittedTotals] at hbound
      have hstep := deleteParkingLot_invariant s lotId confirmed (by omega) h
      simp only [List.foldl_cons, AdminAction.run]
      apply ih
      · have := hstep.2.2.2
        omega
      · exact ⟨hstep.1, hstep.2.1, hstep.2.2.1⟩

/-- Claim C8: after demo-mode `loadAdminDashboard` and any sequence of
`createParkingLot` and `deleteParkingLot` calls (successful or not), every lot
of `adminData.parkingLots` has `available_spots + occupied_spots ==
total_spots`, and the sum of available plus the sum of occupied equals the
sum of total over the catalog. -/
theorem adminRun_lots_balanced (s : App) (actions : List AdminAction) :
    (∀ lot ∈ (adminRun s actions).adminData.parkingLots,
      lot.available_spots + lot.occupied_spots = lot.total_spots) ∧
    sumOf (·.available_spots) (adminRun s actions).adminData.parkingLots +
        sumOf (·.occupied_spots) (adminRun s actions).adminData.parkingLots =
      sumOf (·.total_spots) (adminRun s actions).adminData.parkingLots := by
  have h := (foldl_run_balanced actions (loadAdminDashboard s)
    ⟨(loadAdminDashboard_invariant s).1, _, rfl⟩).1
  exact ⟨h, sumOf_balanced _ h⟩

/-- Instance on the demo catalog after creating lot `X` and deleting lot 2. -/
theorem adminRun_lots_balanced_witness :
    (10 : Int) + 0 = 10 ∧
    sumOf (·.available_spots) (adminRun data [.create formX 7, .delete 2 true]).adminData.parkingLots
        + sumOf (·.occupied_spots)
          (adminRun data [.create formX 7, .delete 2 true]).adminData.parkingLots =
      sumOf (·.total_spots) (adminRun data [.create formX 7, .delete 2 true]).adminData.parkingLots :=
  have h := adminRun_lots_balanced data [.create formX 7, .delete 2 true]
  ⟨h.1 { id := 7, name := "X", address := some "Demo Address", pincode := some "000000",
         price_per_hour := some 40, total_spots := 10, available_spots := 10,
         occupied_spots := 0 } (by decide), h.2⟩

/-- Claim C9, as stated, fails for totals beyond the range in which doubles
are exact: after `loadAdminDashboard` and one `createParkingLot` with
`total_spots = 2^53` the lots have `125 + 2^53 = 9007199254741117` available
spots but `stats.available_spots` is the double `9007199254741116`. -/
theorem adminRun_stats_rounded_counterexample :
    AdminAction.succeeds (loadAdminDashboard data) (.create formTwoPow53 7) = true ∧
    sumOf (·.available_spots) (adminRun data [.create formTwoPow53 7]).adminData.parkingLots =
      9007199254741117 ∧
    (adminRun data [.create formTwoPow53 7]).adminData.stats.map (·.available_spots) =
      some 9007199254741116 ∧
    ¬ ((adminRun data [.create formTwoPow53 7]).adminData.stats.map (·.available_spots) =
      some (sumOf (·.available_spots)
        (adminRun data [.create formTwoPow53 7]).adminData.parkingLots)) := by
  decide

/-- Claim C9, amended: after demo-mode `loadAdminDashboard` and any sequence
of `createParkingLot` and `deleteParkingLot` calls (successful or not) in
which the magnitudes of the submitted totals add up to at most `2^53 - 250`,
so that every sum is a number that a double holds exactly, the stored
statistics agree with the catalog: `stats.total_spots`,
`stats.available_spots` and `stats.occupied_spots` are the sums of the lots'
`total_spots`, `available_spots` and `occupied_spots`. -/
theorem adminRun_stats_agree (s : App) (actions : List AdminAction)
    (hbound : 250 + submittedTotals actions ≤ 9007199254740992) :
    ∃ stats, (adminRun s actions).adminData.stats = some stats ∧
      stats.total_spots = sumOf (·.total_spots) (adminRun s actions).adminData.parkingLots ∧
      stats.available_spots =
        sumOf (·.available_spots) (adminRun s actions).adminData.parkingLots ∧
      stats.occupied_spots =
        sumOf (·.occupied_spots) (adminRun s actions).adminData.parkingLots := by
  apply foldl_run_invariant actions (loadAdminDashboard s)
  · have : absTotal (loadAdminDashboard s).adminData.parkingLots = 250 := rfl
    omega
  · refine ⟨(loadAdminDashboard_invariant s).1, (loadAdminDashboard_invariant s).2, ?_⟩
    intro lot hlot
    simp [loadAdminDashboard] at hlot
    rcases hlot with rfl | rfl | rfl <;> decide

/-- Instance on the demo catalog: lot `X` with 10 spots is created and lot 2
deleted; the statistics are 180, 93 and 87. -/
theorem adminRun_stats_agree_witness :
    ∃ stats, (adminRun data [.create formX 7, .delete 2 true]).adminData.stats = some stats ∧
      stats.total_spots = 180 ∧ stats.available_spots = 93 ∧ stats.occupied_spots = 87 :=
  (adminRun_stats_agree data [.create formX 7, .delete 2 true] (by decide)).elim
    fun stats h =>
      ⟨stats, h.1, h.2.1.trans (by decide), h.2.2.1.trans (by decide),
        h.2.2.2.trans (by decide)⟩

/-- Claim C10 fails on the code: after `loadAdminDashboard` and one successful
`createParkingLot` (form `X`, price 40, 10 spots) the catalog has 4 lots while
`stats.total_lots` is still 3; a successful `deleteParkingLot` of lot 2 leaves
2 lots and `stats.total_lots` at 3 as well. -/
theorem total_lots_not_updated :
    AdminAction.succeeds (loadAdminDashboard data) (.create formX 7) = true ∧
    (adminRun data [.create formX 7]).adminData.parkingLots.length = 4 ∧
    (adminRun data [.create formX 7]).adminData.stats.map (·.total_lots) = some 3 ∧
    AdminAction.succeeds (loadAdminDashboard data) (.delete 2 true) = true ∧
    (adminRun data [.delete 2 true]).adminData.parkingLots.length = 2 ∧
    (adminRun data [.delete 2 true]).adminData.stats.map (·.total_lots) = some 3 := by
  decide

/-! ## Creating and deleting lots -/

theorem truthyNumber_some (n : Int) (h : n ≠ 0) : truthyNumber (some n) = true := by
  simp [truthyNumber, h]

theorem truthyNumber_false (x : Option Int) :
    truthyNumber x = false ↔ x = none ∨ x = some 0 := by
  cases x with
  | none => simp [truthyNumber]
  | some n => simp [truthyNumber]

theorem createParkingLot_parkingLots_valid (s : App) (now : Int)
    (hname : s.newLotForm.name ≠ "")
    (hprice : truthyNumber s.newLotForm.price_per_hour = true)
    (htotal : truthyNumber s.newLotForm.total_spots = true) :
    (createParkingLot s now).adminData.parkingLots =
      s.adminData.parkingLots ++
        [ { id := now
            name := s.newLotForm.name
            address := some (orDefault s.newLotForm.address "Demo Address")
            pincode := some (orDefault s.newLotForm.pincode "000000")
            price_per_hour := some (Number s.newLotForm.price_per_hour)
            total_spots := Number s.newLotForm.total_spots
            available_spots := Number s.newLotForm.total_spots
            occupied_spots := 0 } ] ∧
    (createParkingLot s now).adminData.stats =
      s.adminData.stats.map (fun stats =>
        { stats with
          total_spots := toDouble (stats.total_spots + Number s.newLotForm.total_spots)
          available_spots := toDouble (stats.available_spots + Number s.newLotForm.total_spots) }) := by
  cases hstats : s.adminData.stats with
  | none =>
    simp [createParkingLot, clearMessages, hname, hprice, htotal, hstats]
  | some stats =>
    simp [createParkingLot, clearMessages, showSuccess, hname, hprice, htotal, hstats]

theorem createParkingLot_invalid (s : App) (now : Int)
    (h : s.newLotForm.name = "" ∨ truthyNumber s.newLotForm.price_per_hour = false ∨
      truthyNumber s.newLotForm.total_spots = false) :
    createParkingLot s now =
      { s with error := some "Please fill all required fields", success := none } := by
  simp [createParkingLot, clearMessages, showError, h]

/-- Claim C11, as stated, fails for a total beyond the range in which doubles
are exact: on the demo catalog (250 spots) the valid form `X` with price 40
and `2^54` spots is accepted and its lot appended, but `stats.total_spots`
becomes the double `18014398509482232`, which is not `250 + 2^54 =
18014398509482234`. -/
theorem createParkingLot_rounded_counterexample :
    (adminRun data [.create formTwoPow54 7]).error = none ∧
    (adminRun data [.create formTwoPow54 7]).adminData.parkingLots.map (·.total_spots) =
      [50, 80, 120, 18014398509481984] ∧
    (loadAdminDashboard data).adminData.stats.map (·.total_spots) = some 250 ∧
    (adminRun data [.create formTwoPow54 7]).adminData.stats.map (·.total_spots) =
      some 18014398509482232 ∧
    ¬ ((adminRun data [.create formTwoPow54 7]).adminData.stats.map (·.total_spots) =
      some (250 + 18014398509481984)) := by
  decide

/-- Claim C11, amended: with the statistics loaded, for a form with a
non-empty name, a positive price `p` and a positive total `n`, demo-mode
`createParkingLot` appends exactly one lot at the end of
`adminData.parkingLots`, with `available_spots == n`, `occupied_spots == 0`,
`total_spots == n` and `price_per_hour == p`, and keeps the lots that were
there; when `stats.total_spots + n` is at most `2^53` in magnitude, where the
addition of doubles is exact, it increases `stats.total_spots` by `n`. -/
theorem createParkingLot_appends (s : App) (now p n : Int) (stats : Stats)
    (hstats : s.adminData.stats = some stats)
    (hname : s.newLotForm.name ≠ "")
    (hprice : s.newLotForm.price_per_hour = some p) (hp : 0 < p)
    (htotal : s.newLotForm.total_spots = some n) (hn : 0 < n)
    (hbound : (stats.total_spots + n).natAbs ≤ 9007199254740992) :
    ∃ newLot : AdminLot,
      (createParkingLot s now).adminData.parkingLots = s.adminData.parkingLots ++ [newLot] ∧
      newLot.name = s.newLotForm.name ∧
      newLot.available_spots = n ∧ newLot.occupied_spots = 0 ∧ newLot.total_spots = n ∧
      newLot.price_per_hour = some p ∧
      ∃ stats2, (createParkingLot s now).adminData.stats = some stats2 ∧
        stats2.total_spots = stats.total_spots + n := by
  have h := createParkingLot_parkingLots_valid s now hname
    (by rw [hprice]; exact truthyNumber_some p (by omega))
    (by rw [htotal]; exact truthyNumber_some n (by omega))
  refine ⟨_, h.1, rfl, ?_, rfl, ?_, ?_, ?_⟩
  · simp [htotal, Number]
  · simp [htotal, Number]
  · simp [hprice, Number]
  · rw [h.2, hstats]
    refine ⟨_, rfl, ?_⟩
    simp only [htotal, Number]
    exact toDouble_exact _ hbound

/-- Instance of the scenario `create lot(name="X", price=40, total=10)` on the
demo catalog: total spots go from 250 to 260. -/
theorem createParkingLot_appends_witness :
    (adminRun data [.create formX 7]).adminData.parkingLots =
      (loadAdminDashboard data).adminData.parkingLots ++
        [ { id := 7, name := "X", address := some "Demo Address", pincode := some "000000",
            price_per_hour := some 40, total_spots := 10, available_spots := 10,
            occupied_spots := 0 } ] ∧
    (adminRun data [.create formX 7]).adminData.stats.map (·.total_spots) = some (250 + 10) ∧
    ∃ newLot : AdminLot,
      (createParkingLot { loadAdminDashboard data with newLotForm := formX } 7).adminData.parkingLots
        = (loadAdminDashboard data).adminData.parkingLots ++ [newLot] ∧
      newLot.available_spots = 10 ∧ newLot.occupied_spots = 0 ∧ newLot.total_spots = 10 ∧
      ∃ stats2,
        (createParkingLot { loadAdminDashboard data with newLotForm := formX } 7).adminData.stats
          = some stats2 ∧ stats2.total_spots = 250 + 10 :=
  have h := createParkingLot_appends { loadAdminDashboard data with newLotForm := formX } 7 40 10
    { total_lots := 3, total_spots := 250, available_spots := 125, occupied_spots := 125,
      active_reservations := 14, total_users := 42 }
    rfl (by decide) rfl (by decide) rfl (by decide) (by decide)
  ⟨by decide, by decide,
    h.elim fun newLot hl =>
      ⟨newLot, hl.1, hl.2.2.1, hl.2.2.2.1, hl.2.2.2.2.1, hl.2.2.2.2.2.2⟩⟩

/-- Claim C12, as stated, fails for negative numbers: on the demo catalog the
form `X` with price `-5` and the form `X` with `-5` spots are both accepted
without an error; the second one adds a lot with `total_spots == -5` and
lowers `stats.total_spots` from 250 to 245. -/
theorem createParkingLot_negative_counterexample :
    (adminRun data [.create formNegativePrice 7]).adminData.parkingLots.length = 4 ∧
    (adminRun data [.create formNegativePrice 7]).error = none ∧
    (adminRun data [.create formNegativeTotal 7]).adminData.parkingLots.map (·.total_spots) =
      [50, 80, 120, -5] ∧
    (adminRun data [.create formNegativeTotal 7]).error = none ∧
    (adminRun data [.create formNegativeTotal 7]).adminData.stats.map (·.total_spots) =
      some 245 ∧
    ¬ ((adminRun data [.create formNegativeTotal 7]).adminData =
      (loadAdminDashboard data).adminData) := by
  decide

/-- Claim C12, amended: demo-mode `createParkingLot` rejects a form exactly
when the name is empty or the price or the total is missing or zero: it then
reports `Please fill all required fields` and leaves `adminData` (lots and
statistics) unchanged; it adds a lot only if the name is non-empty and price
and total are present and different from zero (negative numbers pass). -/
theorem createParkingLot_validation (s : App) (now : Int) :
    ((s.newLotForm.name = "" ∨
        s.newLotForm.price_per_hour = none ∨ s.newLotForm.price_per_hour = some 0 ∨
        s.newLotForm.total_spots = none ∨ s.newLotForm.total_spots = some 0) →
      (createParkingLot s now).adminData = s.adminData ∧
      (createParkingLot s now).error = some "Please fill all required fields") ∧
    ((createParkingLot s now).adminData.parkingLots ≠ s.adminData.parkingLots →
      s.newLotForm.name ≠ "" ∧
      (∃ p, s.newLotForm.price_per_hour = some p ∧ p ≠ 0) ∧
      (∃ n, s.newLotForm.total_spots = some n ∧ n ≠ 0)) := by
  have hinv : (s.newLotForm.name = "" ∨
        s.newLotForm.price_per_hour = none ∨ s.newLotForm.price_per_hour = some 0 ∨
        s.newLotForm.total_spots = none ∨ s.newLotForm.total_spots = some 0) →
      createParkingLot s now =
        { s with error := some "Please fill all required fields", success := none } := by
    intro h
    apply createParkingLot_invalid
    rcases h with h | h | h | h | h
    · exact Or.inl h
    · exact Or.inr (Or.inl ((truthyNumber_false _).2 (Or.inl h)))
    · exact Or.inr (Or.inl ((truthyNumber_false _).2 (Or.inr h)))
    · exact Or.inr (Or.inr ((truthyNumber_false _).2 (Or.inl h)))
    · exact Or.inr (Or.inr ((truthyNumber_false _).2 (Or.inr h)))
  constructor
  · intro h
    rw [hinv h]
    exact ⟨rfl, rfl⟩
  · intro hchange
    have hname : s.newLotForm.name ≠ "" := by
      intro h
      exact hchange (by rw [hinv (Or.inl h)])
    have hprice : ∃ p, s.newLotForm.price_per_hour = some p ∧ p ≠ 0 := by
      cases hp : s.newLotForm.price_per_hour with
      | none => exact absurd (by rw [hinv (Or.inr (Or.inl hp))]) hchange
      | some p =>
        refine ⟨p, rfl, ?_⟩
        rintro rfl
        exact hchange (by rw [hinv (Or.inr (Or.inr (Or.inl hp)))])
    have htotal : ∃ n, s.newLotForm.total_spots = some n ∧ n ≠ 0 := by
      cases hn : s.newLotForm.total_spots with
      | none => exact absurd (by rw [hinv (Or.inr (Or.inr (Or.inr (Or.inl hn))))]) hchange
      | some n =>
        refine ⟨n, rfl, ?_⟩
        rintro rfl
        exact hchange (by rw [hinv (Or.inr (Or.inr (Or.inr (Or.inr hn))))])
    exact ⟨hname, hprice, htotal⟩

/-- Instance on the demo catalog: the form `X` without a price is rejected,
and the accepted form `X` of the scenario has a price and a total. -/
theorem createParkingLot_validation_witness :
    ((createParkingLot { loadAdminDashboard data with newLotForm := formNoPrice } 7).adminData =
        (loadAdminDashboard data).adminData ∧
      (createParkingLot { loadAdminDashboard data with newLotForm := formNoPrice } 7).error =
        some "Please fill all required fields") ∧
    (formX.name ≠ "" ∧ (∃ p, formX.price_per_hour = some p ∧ p ≠ 0) ∧
      (∃ n, formX.total_spots = some n ∧ n ≠ 0)) :=
  ⟨(createParkingLot_validation { loadAdminDashboard data with newLotForm := formNoPrice } 7).1
      (Or.inr (Or.inl rfl)),
   (createParkingLot_validation { loadAdminDashboard data with newLotForm := formX } 7).2
      (by decide)⟩

theorem createParkingLot_parkingLots_cases (s : App) (now : Int) :
    (createParkingLot s now).adminData.parkingLots = s.adminData.parkingLots ∨
    ∃ newLot : AdminLot, newLot.id = now ∧
      (createParkingLot s now).adminData.parkingLots = s.adminData.parkingLots ++ [newLot] := by
  by_cases h : s.newLotForm.name = "" ∨ truthyNumber s.newLotForm.price_per_hour = false ∨
      truthyNumber s.newLotForm.total_spots = false
  · left
    rw [createParkingLot_invalid s now h]
  · right
    simp only [not_or, Bool.not_eq_false] at h
    exact ⟨_, rfl, (createParkingLot_parkingLots_valid s now h.1 h.2.1 h.2.2).1⟩

theorem deleteParkingLot_parkingLots_cases (s : App) (lotId : Int) (confirmed : Bool) :
    (deleteParkingLot s lotId confirmed).adminData.parkingLots = s.adminData.parkingLots ∨
    ∃ lotIndex,
      (deleteParkingLot s lotId confirmed).adminData.parkingLots =
        s.adminData.parkingLots.eraseIdx lotIndex := by
  cases hstats : s.adminData.stats with
  | none =>
    left
    cases confirmed with
    | false => simp [deleteParkingLot]
    | true =>
      cases hidx : findIndex (fun lot => lot.id == lotId) s.adminData.parkingLots with
      | none => simp [deleteParkingLot, clearMessages, showError, hidx]
      | some lotIndex =>
        cases hlot : s.adminData.parkingLots[lotIndex]? <;>
          simp [deleteParkingLot, clearMessages, hidx, hlot, hstats]
  | some stats =>
    rcases deleteParkingLot_adminData s lotId confirmed stats hstats with
      h | ⟨lotIndex, lot, -, h⟩
    · left
      rw [h]
    · right
      exact ⟨lotIndex, by rw [h]⟩

theorem foldl_run_ids (actions : List AdminAction) (s : App) (last : Int)
    (hclock : clockAdvances last actions = true)
    (hnodup : (s.adminData.parkingLots.map (·.id)).Nodup)
    (hle : ∀ lot ∈ s.adminData.parkingLots, lot.id ≤ last) :
    ((actions.foldl AdminAction.run s).adminData.parkingLots.map (·.id)).Nodup := by
  induction actions generalizing s last with
  | nil => exact hnodup
  | cons a actions ih =>
    cases a with
    | create form now =>
      simp only [clockAdvances, Bool.and_eq_true, decide_eq_true_eq] at hclock
      simp only [List.foldl_cons, AdminAction.run]
      rcases createParkingLot_parkingLots_cases { s with newLotForm := form } now with
        h | ⟨newLot, hid, h⟩
      · apply ih _ now hclock.2
        · rw [h]
          exact hnodup
        · intro lot hlot
          rw [h] at hlot
          have := hle lot hlot
          omega
      · apply ih _ now hclock.2
        · rw [h, List.map_append, List.nodup_append]
          refine ⟨hnodup, by simp, ?_⟩
          intro a ha hb
          simp only [List.map_cons, List.map_nil, List.mem_singleton] at hb
          obtain ⟨lot, hlot, rfl⟩ := List.mem_map.1 ha
          have := hle lot hlot
          omega
        · intro lot hlot
          rw [h, List.mem_append, List.mem_singleton] at hlot
          rcases hlot with hlot | rfl
          · have := hle lot hlot
            omega
          · omega
    | delete lotId confirmed =>
      simp only [clockAdvances] at hclock
      simp only [List.foldl_cons, AdminAction.run]
      rcases deleteParkingLot_parkingLots_cases s lotId confirmed with h | ⟨lotIndex, h⟩
      · apply ih _ last hclock
        · rw [h]
          exact hnodup
        · intro lot hlot
          rw [h] at hlot
          exact hle lot hlot
      · apply ih _ last hclock
        · rw [h]
          exact hnodup.sublist ((List.eraseIdx_sublist _ _).map _)
        · intro lot hlot
          rw [h] at hlot
          exact hle lot (List.mem_of_mem_eraseIdx hlot)

/-- Claim C13, as stated, fails: the identifier is the clock value, so two
lots created at the same clock value get the same id, and a lot created at
clock value 2 gets the id of the demo lot 2. -/
theorem createParkingLot_id_counterexample :
    (adminRun data [.create formX 1730851200000, .create formX 1730851200000]
      ).adminData.parkingLots.map (·.id) = [1, 2, 3, 1730851200000, 1730851200000] ∧
    (adminRun data [.create formX 2]).adminData.parkingLots.map (·.id) = [1, 2, 3, 2] ∧
    ¬ ((adminRun data [.create formX 1730851200000, .create formX 1730851200000]
      ).adminData.parkingLots.map (·.id)).Nodup := by
  decide

/-- Claim C13, amended: the identifier assigned by demo-mode `createParkingLot`
is the clock value; in every state reached from `loadAdminDashboard` by
`createParkingLot` and `deleteParkingLot` calls whose clock values are larger
than 3 (the largest id of the demo lots) and strictly increasing, the ids of
the lots are pairwise distinct, so each new id differs from every id already
in the catalog. -/
theorem adminRun_ids_distinct (s : App) (actions : List AdminAction)
    (hclock : clockAdvances 3 actions = true) :
    ((adminRun s actions).adminData.parkingLots.map (·.id)).Nodup := by
  apply foldl_run_ids actions (loadAdminDashboard s) 3 hclock
  · simp [loadAdminDashboard]
  · intro lot hlot
    simp [loadAdminDashboard] at hlot
    rcases hlot with rfl | rfl | rfl <;> decide

/-- Instance on the demo catalog: two lots created at increasing clock values,
with a delete in between. -/
theorem adminRun_ids_distinct_witness :
    ((adminRun data
        [.create formX 1730851200000, .delete 2 true, .create formX 1730851200001]
      ).adminData.parkingLots.map (·.id)).Nodup ∧
    (adminRun data
        [.create formX 1730851200000, .delete 2 true, .create formX 1730851200001]
      ).adminData.parkingLots.map (·.id) = [1, 3, 1730851200000, 1730851200001] :=
  ⟨adminRun_ids_distinct data
      [.create formX 1730851200000, .delete 2 true, .create formX 1730851200001] (by decide),
    by decide⟩

theorem findIndex_some_first {α : Type} (p : α → Bool) (xs : List α) (k : Nat)
    (h : findIndex p xs = some k) : ∀ x ∈ xs.take k, p x = false := by
  induction xs generalizing k with
  | nil => simp [findIndex] at h
  | cons a xs ih =>
    unfold findIndex at h
    by_cases hp : p a = true
    · simp [hp] at h
      subst h
      simp
    · simp [hp] at h
      obtain ⟨j, hj, rfl⟩ := h
      intro x hx
      simp only [List.take_succ_cons, List.mem_cons] at hx
      rcases hx with rfl | hx
      · simpa using hp
      · exact ih j hj x hx

theorem findIndex_none {α : Type} (p : α → Bool) (xs : List α)
    (h : findIndex p xs = none) : ∀ x ∈ xs, p x = false := by
  induction xs with
  | nil => simp
  | cons a xs ih =>
    unfold findIndex at h
    by_cases hp : p a = true
    · simp [hp] at h
    · simp [hp] at h
      intro x hx
      simp only [List.mem_cons] at hx
      rcases hx with rfl | hx
      · simpa using hp
      · exact ih h x hx

theorem deleteParkingLot_first (s : App) (i : Nat) (lot : AdminLot) (stats : Stats)
    (hstats : s.adminData.stats = some stats)
    (hlot : s.adminData.parkingLots[i]? = some lot)
    (hfirst : ∀ l ∈ s.adminData.parkingLots.take i, l.id ≠ lot.id) :
    (deleteParkingLot s lot.id true).adminData =
      { s.adminData with
        stats := some
          { stats with
            total_spots := toDouble (stats.total_spots - lot.total_spots)
            available_spots := toDouble (stats.available_spots - lot.available_spots)
            occupied_spots := toDouble (stats.occupied_spots - lot.occupied_spots) }
        parkingLots := s.adminData.parkingLots.eraseIdx i } := by
  have hidx : findIndex (fun l => l.id == lot.id) s.adminData.parkingLots = some i := by
    apply findIndex_first _ _ i lot hlot (by simp)
    intro k y hk hy
    have hmem : y ∈ s.adminData.parkingLots.take i :=
      List.getElem?_mem (n := k) (by rw [List.getElem?_take_of_lt hk]; exact hy)
    simpa using hfirst y hmem
  simp [deleteParkingLot, clearMessages, showSuccess, hidx, hlot, hstats]

/-- Claim C14, as stated, fails: `Mall Parking` (id 2) of the demo catalog has
38 occupied spots; a confirmed `deleteParkingLot(2)` removes it and lowers the
statistics by its counters. -/
theorem deleteParkingLot_occupied_counterexample :
    (loadAdminDashboard data).adminData.parkingLots.map
      (fun lot => (lot.id, lot.occupied_spots)) = [(1, 32), (2, 38), (3, 55)] ∧
    (deleteParkingLot (loadAdminDashboard data) 2 true).adminData.parkingLots.map (·.id) =
      [1, 3] ∧
    (deleteParkingLot (loadAdminDashboard data) 2 true).adminData.stats.map
      (fun stats => (stats.total_spots, stats.available_spots, stats.occupied_spots)) =
      some (170, 83, 87) ∧
    ¬ ((deleteParkingLot (loadAdminDashboard data) 2 true).adminData =
      (loadAdminDashboard data).adminData) := by
  decide

/-- Claim C14, amended: a lot with `occupied_spots > 0` is protected by its
delete button only, which is disabled, so that a click on it leaves the state
unchanged; `deleteParkingLot` itself has no check of the occupied count: with
the statistics loaded and called with the id of such a lot (the first lot with
that id), it removes the lot. -/
theorem deleteButtonClick_occupied (s : App) (i : Nat) (lot : AdminLot) (stats : Stats)
    (confirmed : Bool)
    (hocc : 0 < lot.occupied_spots)
    (hstats : s.adminData.stats = some stats)
    (hlot : s.adminData.parkingLots[i]? = some lot)
    (hfirst : ∀ l ∈ s.adminData.parkingLots.take i, l.id ≠ lot.id) :
    deleteButtonClick s lot confirmed = s ∧
    (deleteParkingLot s lot.id true).adminData.parkingLots =
      s.adminData.parkingLots.eraseIdx i ∧
    (deleteParkingLot s lot.id true).adminData.parkingLots.length + 1 =
      s.adminData.parkingLots.length := by
  have h := deleteParkingLot_first s i lot stats hstats hlot hfirst
  have hi := getElem?_lt _ i lot hlot
  refine ⟨?_, by rw [h], ?_⟩
  · simp [deleteButtonClick, hocc]
  · rw [h]
    simp only [List.length_eraseIdx, hi, if_true]
    omega

/-- Instance on the demo catalog: the row of `Mall Parking` (38 occupied). -/
theorem deleteButtonClick_occupied_witness :
    deleteButtonClick (loadAdminDashboard data)
        { id := 2, name := "Mall Parking", address := none, pincode := none,
          price_per_hour := none, total_spots := 80, available_spots := 42,
          occupied_spots := 38 } true = loadAdminDashboard data ∧
    (deleteParkingLot (loadAdminDashboard data) 2 true).adminData.parkingLots =
      (loadAdminDashboard data).adminData.parkingLots.eraseIdx 1 :=
  have h := deleteButtonClick_occupied (loadAdminDashboard data) 1
    { id := 2, name := "Mall Parking", address := none, pincode := none,
      price_per_hour := none, total_spots := 80, available_spots := 42, occupied_spots := 38 }
    { total_lots := 3, total_spots := 250, available_spots := 125, occupied_spots := 125,
      active_reservations := 14, total_users := 42 }
    true (by decide) rfl rfl (by decide)
  ⟨h.1, h.2.1⟩

/-- Claim C15, as stated, fails for counters beyond the range in which
doubles are exact: after a lot with `2^53` spots was created on the demo
catalog, `stats.available_spots` is `9007199254741116`; deleting `Airport
Parking` (id 3, 65 available) removes the lot but leaves the double
`9007199254741052`, not `9007199254741116 - 65 = 9007199254741051`. -/
theorem deleteParkingLot_rounded_counterexample :
    (adminRun data [.create formTwoPow53 7]).adminData.stats.map (·.available_spots) =
      some 9007199254741116 ∧
    (adminRun data [.create formTwoPow53 7]).adminData.parkingLots.map
      (fun lot => (lot.id, lot.available_spots)) =
      [(1, 18), (2, 42), (3, 65), (7, 9007199254740992)] ∧
    (deleteParkingLot (adminRun data [.create formTwoPow53 7]) 3 true).adminData.parkingLots.map
      (·.id) = [1, 2, 7] ∧
    (deleteParkingLot (adminRun data [.create formTwoPow53 7]) 3 true).adminData.stats.map
      (·.available_spots) = some 9007199254741052 ∧
    ¬ ((deleteParkingLot (adminRun data [.create formTwoPow53 7]) 3 true).adminData.stats.map
      (·.available_spots) = some (9007199254741116 - 65)) := by
  decide

/-- Claim C15, amended: with the statistics loaded, for every catalog and
every id present in it, a confirmed demo-mode `deleteParkingLot` removes
exactly one lot, the first whose id matches, and keeps all other lots
unchanged and in their order; when for the lots of that id the three
differences between the statistics and the lot's counters are at most `2^53`
in magnitude, where the subtraction of doubles is exact, it decreases
`stats.total_spots`, `stats.available_spots` and `stats.occupied_spots` by
that lot's counters. -/
theorem deleteParkingLot_removes (s : App) (lotId : Int) (stats : Stats)
    (hstats : s.adminData.stats = some stats)
    (hmem : ∃ lot ∈ s.adminData.parkingLots, lot.id = lotId)
    (hbound : ∀ lot ∈ s.adminData.parkingLots, lot.id = lotId →
      (stats.total_spots - lot.total_spots).natAbs ≤ 9007199254740992 ∧
      (stats.available_spots - lot.available_spots).natAbs ≤ 9007199254740992 ∧
      (stats.occupied_spots - lot.occupied_spots).natAbs ≤ 9007199254740992) :
    ∃ i lot, s.adminData.parkingLots[i]? = some lot ∧ lot.id = lotId ∧
      (∀ l ∈ s.adminData.parkingLots.take i, l.id ≠ lotId) ∧
      (deleteParkingLot s lotId true).adminData.parkingLots =
        s.adminData.parkingLots.eraseIdx i ∧
      (deleteParkingLot s lotId true).adminData.parkingLots.length + 1 =
        s.adminData.parkingLots.length ∧
      (deleteParkingLot s lotId true).adminData.stats = some
        { stats with
          total_spots := stats.total_spots - lot.total_spots
          available_spots := stats.available_spots - lot.available_spots
          occupied_spots := stats.occupied_spots - lot.occupied_spots } := by
  cases hidx : findIndex (fun l => l.id == lotId) s.adminData.parkingLots with
  | none =>
    obtain ⟨lot, hlot, hid⟩ := hmem
    have := findIndex_none _ _ hidx lot hlot
    simp [hid] at this
  | some i =>
    obtain ⟨lot, hlot, hp⟩ := findIndex_some _ _ _ hidx
    have hid : lot.id = lotId := by simpa using hp
    have hfirst : ∀ l ∈ s.adminData.parkingLots.take i, l.id ≠ lotId := by
      intro l hl
      simpa using findIndex_some_first _ _ _ hidx l hl
    have h := deleteParkingLot_first s i lot stats hstats hlot (by rw [hid]; exact hfirst)
    rw [hid] at h
    have hi := getElem?_lt _ i lot hlot
    obtain ⟨bt, ba, bo⟩ := hbound lot (List.getElem?_mem hlot) hid
    rw [toDouble_exact _ bt, toDouble_exact _ ba, toDouble_exact _ bo] at h
    refine ⟨i, lot, hlot, hid, hfirst, by rw [h], ?_, by rw [h]⟩
    rw [h]
    simp only [List.length_eraseIdx, hi, if_true]
    omega

/-- Instance on the demo catalog: deleting `City Center Parking` (id 1) leaves
the statistics 200, 107 and 93. -/
theorem deleteParkingLot_removes_witness :
    (∃ i lot, (loadAdminDashboard data).adminData.parkingLots[i]? = some lot ∧ lot.id = 1 ∧
      (deleteParkingLot (loadAdminDashboard data) 1 true).adminData.parkingLots =
        (loadAdminDashboard data).adminData.parkingLots.eraseIdx i) ∧
    (deleteParkingLot (loadAdminDashboard data) 1 true).adminData.stats.map
      (fun stats => (stats.total_spots, stats.available_spots, stats.occupied_spots)) =
      some (200, 107, 93) :=
  ⟨(deleteParkingLot_removes (loadAdminDashboard data) 1
    { total_lots := 3, total_spots := 250, available_spots := 125, occupied_spots := 125,
      active_reservations := 14, total_users := 42 }
    rfl
    ⟨{ id := 1, name := "City Center Parking", address := none, pincode := none,
       price_per_hour := none, total_spots := 50, available_spots := 18, occupied_spots := 32 },
      by decide, rfl⟩
    (by decide)).elim
    fun i h => h.elim fun lot hl => ⟨i, lot, hl.1, hl.2.1, hl.2.2.2.1⟩, by decide⟩

/-! ## Reservations are kept -/

theorem bookParkingSpot_unchanged (s : App) (now : Int)
    (h : ¬ ∃ i L, s.selectedLot = some i ∧ s.userData.parkingLots[i]? = some L ∧
      0 < L.available_slots) :
    (bookParkingSpot s now).userData = s.userData := by
  cases hsel : s.selectedLot with
  | none => simp [bookParkingSpot, hsel]
  | some i =>
    cases hL : s.userData.parkingLots[i]? with
    | none => simp [bookParkingSpot, hsel, hL]
    | some L =>
      have hfull : L.available_slots ≤ 0 := by
        by_contra hpos
        exact h ⟨i, L, hsel, hL, by omega⟩
      simp [bookParkingSpot, hsel, hL, hfull, clearMessages, showError]

theorem releaseParkingSpot_ids (s : App) (random : ℚ) :
    (releaseParkingSpot s random).userData.reservations.map (·.id) =
      s.userData.reservations.map (·.id) := by
  cases hsel : s.selectedReservation with
  | none => simp [releaseParkingSpot, hsel]
  | some j =>
    cases hres : s.userData.reservations[j]? with
    | none => simp [releaseParkingSpot, hsel, hres]
    | some res =>
      rw [(releaseParkingSpot_userData s random j res hsel hres).1, List.map_set]
      apply set_getElem?_self
      simp [hres]

/-- Claim C16: no reservation is deleted. A successful demo-mode
`bookParkingSpot` makes `userData.reservations` one longer, a failed one (no
free slot, or nothing selected) leaves it as it was; `releaseParkingSpot`
keeps its length; and every reservation id present before either operation is
present after it. -/
theorem reservations_never_deleted (s : App) (now : Int) (random : ℚ) :
    (∀ i L, s.selectedLot = some i → s.userData.parkingLots[i]? = some L →
      0 < L.available_slots →
      (bookParkingSpot s now).userData.reservations.length =
        s.userData.reservations.length + 1) ∧
    ((¬ ∃ i L, s.selectedLot = some i ∧ s.userData.parkingLots[i]? = some L ∧
        0 < L.available_slots) →
      (bookParkingSpot s now).userData.reservations.length = s.userData.reservations.length) ∧
    (releaseParkingSpot s random).userData.reservations.length =
      s.userData.reservations.length ∧
    (∀ id ∈ s.userData.reservations.map (·.id),
      id ∈ (bookParkingSpot s now).userData.reservations.map (·.id)) ∧
    (∀ id ∈ s.userData.reservations.map (·.id),
      id ∈ (releaseParkingSpot s random).userData.reservations.map (·.id)) := by
  refine ⟨?_, ?_, ?_, ?_, ?_⟩
  · intro i L hsel hL hpos
    rw [(bookParkingSpot_userData s now i L hsel hL hpos).2]
    simp
  · intro h
    rw [bookParkingSpot_unchanged s now h]
  · have h := congrArg List.length (releaseParkingSpot_ids s random)
    simpa using h
  · intro id hid
    by_cases h : ∃ i L, s.selectedLot = some i ∧ s.userData.parkingLots[i]? = some L ∧
        0 < L.available_slots
    · obtain ⟨i, L, hsel, hL, hpos⟩ := h
      rw [(bookParkingSpot_userData s now i L hsel hL hpos).2, List.map_cons]
      exact List.mem_cons_of_mem _ hid
    · rw [bookParkingSpot_unchanged s now h]
      exact hid
  · intro id hid
    rw [releaseParkingSpot_ids s random]
    exact hid

/-- Instance on the demo data: booking on `City Center Parking` gives four
reservations, booking on a full lot none, and reservation 102 is still there
after a booking and after a release. -/
theorem reservations_never_deleted_witness :
    (bookParkingSpot (confirmBooking (loadUserDashboard data) 0) 7).userData.reservations.length =
      3 + 1 ∧
    (bookParkingSpot (confirmBooking fullLot 0) 7).userData.reservations.length = 0 ∧
    (102 : Int) ∈ (bookParkingSpot (confirmBooking (loadUserDashboard data) 0)
      7).userData.reservations.map (·.id) ∧
    (102 : Int) ∈ (releaseParkingSpot { loadUserDashboard data with selectedReservation := some 1 }
      (1 / 2)).userData.reservations.map (·.id) :=
  ⟨(reservations_never_deleted (confirmBooking (loadUserDashboard data) 0) 7 (1 / 2)).1 0
      { id := 1, name := "City Center Parking", total_slots := 50, available_slots := 18,
        price_per_hour := 40 } rfl rfl (by decide),
    (reservations_never_deleted (confirmBooking fullLot 0) 7 (1 / 2)).2.1 (by
      rintro ⟨i, L, hsel, hL, hpos⟩
      simp only [confirmBooking, Option.some.injEq] at hsel
      subst hsel
      simp only [confirmBooking, fullLot, data, List.getElem?_cons_zero, Option.some.injEq] at hL
      subst hL
      exact absurd hpos (by decide)),
    (reservations_never_deleted (confirmBooking (loadUserDashboard data) 0) 7 (1 / 2)).2.2.2.1
      102 (by decide),
    (reservations_never_deleted { loadUserDashboard data with selectedReservation := some 1 } 7
      (1 / 2)).2.2.2.2 102 (by decide)⟩

/-! ## Login, registration and the restored session -/

theorem login_fields (json : JSON) (s : App) (storage : Storage) :
    (login json s storage).1.user =
      some { username := s.loginForm.username,
             role := if s.loginForm.username = "admin" then "admin" else "user" } ∧
    (login json s storage).1.token = some "demo-token" ∧
    (login json s storage).1.currentView =
      (if s.loginForm.username = "admin" then "admin-dashboard" else "user-dashboard") ∧
    (login json s storage).2 =
      { token := some "demo-token",
        user := some (json.stringify
          { username := s.loginForm.username,
            role := if s.loginForm.username = "admin" then "admin" else "user" }) } := by
  by_cases h : s.loginForm.username = "admin"
  · simp [login, clearMessages, showSuccess, navigateTo, loadAdminDashboard, h]
  · simp [login, clearMessages, showSuccess, navigateTo, loadUserDashboard, h]

/-- Claim C17: after a demo-mode `login` with username `u` the identity is
`{username: u, role: r}` with `r` one of `admin` and `user`, `r` is `admin`
exactly when `u` is the string `admin`, the token is set, and the current view
is `admin-dashboard` exactly when `r` is `admin` and `user-dashboard`
otherwise. -/
theorem login_identity (json : JSON) (s : App) (storage : Storage) :
    ∃ r : String,
      (login json s storage).1.user = some { username := s.loginForm.username, role := r } ∧
      (r = "admin" ∨ r = "user") ∧
      (r = "admin" ↔ s.loginForm.username = "admin") ∧
      (login json s storage).1.token = some "demo-token" ∧
      ((login json s storage).1.currentView = "admin-dashboard" ↔ r = "admin") ∧
      (r ≠ "admin" → (login json s storage).1.currentView = "user-dashboard") := by
  have h := login_fields json s storage
  by_cases hu : s.loginForm.username = "admin"
  · refine ⟨"admin", ?_, Or.inl rfl, ?_, h.2.1, ?_, ?_⟩
    · rw [h.1, if_pos hu]
    · simp [hu]
    · rw [h.2.2.1, if_pos hu]
      simp
    · intro hne
      exact absurd rfl hne
  · refine ⟨"user", ?_, Or.inr rfl, ?_, h.2.1, ?_, ?_⟩
    · rw [h.1, if_neg hu]
    · simp [hu]
    · rw [h.2.2.1, if_neg hu]
      decide
    · intro _
      rw [h.2.2.1, if_neg hu]

/-- Claim C18 fails on the code: `DEMO_MODE` is `true`, and `login` with an
empty username and an empty password creates the session of the identity with
username `''` and role `user` (token `demo-token`, view `user-dashboard`, no
error, both storage entries written). The check of lines 209-212 rejects the
same form, but it is only reached when `DEMO_MODE` is `false`. -/
theorem login_empty_form_creates_session :
    DEMO_MODE = true ∧
    (login plainJSON (withLoginForm data "" "") emptyStorage).1.user =
      some { username := "", role := "user" } ∧
    (login plainJSON (withLoginForm data "" "") emptyStorage).1.token = some "demo-token" ∧
    (login plainJSON (withLoginForm data "" "") emptyStorage).1.currentView = "user-dashboard" ∧
    (login plainJSON (withLoginForm data "" "") emptyStorage).1.error = none ∧
    (login plainJSON (withLoginForm data "" "") emptyStorage).2.token = some "demo-token" ∧
    (loginBackend plainJSON (withLoginForm data "" "") emptyStorage
        (.ok ("t", { username := "", role := "user" }))).1.error =
      some "Please enter username and password" ∧
    (loginBackend plainJSON (withLoginForm data "" "") emptyStorage
        (.ok ("t", { username := "", role := "user" }))).1.user = none ∧
    (loginBackend plainJSON (withLoginForm data "" "") emptyStorage
        (.ok ("t", { username := "", role := "user" }))).2.2 = [] := by
  decide

/-- Claim C19: `register` checks the form in three steps before any remote
call. An empty username, email or password reports `Please fill all fields`;
otherwise a password different from `confirmPassword` reports `Passwords do
not match`; otherwise a password whose `length` (UTF-16 code units) is below 6
reports `Password must be at least 6 characters`. In these cases no request is
sent and the current view is unchanged. Exactly one request, to
`/api/auth/register`, is sent when none of the three conditions holds, and
none otherwise. -/
theorem register_validation (s : App) (reply : Except String Unit) :
    ((s.registerForm.username = "" ∨ s.registerForm.email = "" ∨
        s.registerForm.password = "") →
      (register s reply).1.error = some "Please fill all fields" ∧
      (register s reply).1.currentView = s.currentView ∧ (register s reply).2 = []) ∧
    (¬ (s.registerForm.username = "" ∨ s.registerForm.email = "" ∨
        s.registerForm.password = "") →
      s.registerForm.password ≠ s.registerForm.confirmPassword →
      (register s reply).1.error = some "Passwords do not match" ∧
      (register s reply).1.currentView = s.currentView ∧ (register s reply).2 = []) ∧
    (¬ (s.registerForm.username = "" ∨ s.registerForm.email = "" ∨
        s.registerForm.password = "") →
      s.registerForm.password = s.registerForm.confirmPassword →
      jsLength s.registerForm.password < 6 →
      (register s reply).1.error = some "Password must be at least 6 characters" ∧
      (register s reply).1.currentView = s.currentView ∧ (register s reply).2 = []) ∧
    (¬ (s.registerForm.username = "" ∨ s.registerForm.email = "" ∨
        s.registerForm.password = "") →
      s.registerForm.password = s.registerForm.confirmPassword →
      6 ≤ jsLength s.registerForm.password →
      ∃ request : ApiRequest, (register s reply).2 = [request] ∧
        request.endpoint = "/api/auth/register" ∧ request.method = "POST" ∧
        request.data =
          [("username", s.registerForm.username), ("email", s.registerForm.email),
           ("password", s.registerForm.password)]) ∧
    ((register s reply).2 ≠ [] →
      ¬ (s.registerForm.username = "" ∨ s.registerForm.email = "" ∨
        s.registerForm.password = "") ∧
      s.registerForm.password = s.registerForm.confirmPassword ∧
      6 ≤ jsLength s.registerForm.password) := by
  have h1 : (s.registerForm.username = "" ∨ s.registerForm.email = "" ∨
        s.registerForm.password = "") →
      register s reply = (showError (clearMessages s) "Please fill all fields", []) := by
    intro h
    simp [register, clearMessages, h]
  have h2 : ¬ (s.registerForm.username = "" ∨ s.registerForm.email = "" ∨
        s.registerForm.password = "") →
      s.registerForm.password ≠ s.registerForm.confirmPassword →
      register s reply = (showError (clearMessages s) "Passwords do not match", []) := by
    intro h hne
    simp only [register, clearMessages, h, if_false]
    simp [hne]
  have h3 : ¬ (s.registerForm.username = "" ∨ s.registerForm.email = "" ∨
        s.registerForm.password = "") →
      s.registerForm.password = s.registerForm.confirmPassword →
      jsLength s.registerForm.password < 6 →
      register s reply =
        (showError (clearMessages s) "Password must be at least 6 characters", []) := by
    intro h heq hlen
    have hlen2 : jsLength s.registerForm.confirmPassword < 6 := by
      rw [← heq]
      exact hlen
    simp only [register, clearMessages, h, if_false]
    simp [heq, hlen2]
  have h4 : ¬ (s.registerForm.username = "" ∨ s.registerForm.email = "" ∨
        s.registerForm.password = "") →
      s.registerForm.password = s.registerForm.confirmPassword →
      6 ≤ jsLength s.registerForm.password →
      (register s reply).2 =
        [ { endpoint := "/api/auth/register", method := "POST",
            data := [("username", s.registerForm.username), ("email", s.registerForm.email),
              ("password", s.registerForm.password)],
            bearer := s.token.filter (fun token => token != "") } ] := by
    intro h heq hlen
    have hlen2 : ¬ jsLength s.registerForm.confirmPassword < 6 := by
      rw [← heq]
      omega
    cases reply with
    | ok u =>
      simp only [register, clearMessages, h, if_false]
      simp [heq, hlen2, apiCall]
    | error message =>
      simp only [register, clearMessages, h, if_false]
      simp [heq, hlen2, apiCall]
  refine ⟨?_, ?_, ?_, ?_, ?_⟩
  · intro h
    rw [h1 h]
    exact ⟨rfl, rfl, rfl⟩
  · intro h hne
    rw [h2 h hne]
    exact ⟨rfl, rfl, rfl⟩
  · intro h heq hlen
    rw [h3 h heq hlen]
    exact ⟨rfl, rfl, rfl⟩
  · intro h heq hlen
    exact ⟨_, h4 h heq hlen, rfl, rfl, rfl⟩
  · intro hcall
    by_cases h : s.registerForm.username = "" ∨ s.registerForm.email = "" ∨
        s.registerForm.password = ""
    · exact absurd (by rw [h1 h]) hcall
    · by_cases heq : s.registerForm.password = s.registerForm.confirmPassword
      · by_cases hlen : jsLength s.registerForm.password < 6
        · exact absurd (by rw [h3 h heq hlen]) hcall
        · exact ⟨h, heq, by omega⟩
      · exact absurd (by rw [h2 h heq]) hcall

/-- Instance: a form without email, a form with a mistyped confirmation, a
five-letter password and a form that is sent. -/
theorem register_validation_witness :
    (register (withRegisterForm data "bob" "" "secret" "secret") (.ok ())).1.error =
      some "Please fill all fields" ∧
    (register (withRegisterForm data "bob" "b@x.org" "secret" "secrat") (.ok ())).1.error =
      some "Passwords do not match" ∧
    (register (withRegisterForm data "bob" "b@x.org" "secre" "secre") (.ok ())).1.error =
      some "Password must be at least 6 characters" ∧
    (∃ request : ApiRequest,
      (register (withRegisterForm data "bob" "b@x.org" "secret" "secret") (.ok ())).2 =
        [request] ∧ request.endpoint = "/api/auth/register") :=
  ⟨((register_validation (withRegisterForm data "bob" "" "secret" "secret") (.ok ())).1
      (by decide)).1,
   ((register_validation (withRegisterForm data "bob" "b@x.org" "secret" "secrat") (.ok ())).2.1
      (by decide) (by decide)).1,
   ((register_validation (withRegisterForm data "bob" "b@x.org" "secre" "secre") (.ok ())).2.2.1
      (by decide) (by decide) (by decide)).1,
   ((register_validation (withRegisterForm data "bob" "b@x.org" "secret" "secret")
      (.ok ())).2.2.2.1 (by decide) (by decide) (by decide)).elim
      fun request h => ⟨request, h.1, h.2.1⟩⟩

theorem checkAuth_entries (json : JSON) (s : App) (token text : String) (identity : User)
    (htoken : token ≠ "") (htext : text ≠ "") (hparse : json.parse text = some identity) :
    (checkAuth json s { token := some token, user := some text }).token = some token ∧
    (checkAuth json s { token := some token, user := some text }).user = some identity ∧
    (checkAuth json s { token := some token, user := some text }).currentView =
      (if identity.role = "admin" then "admin-dashboard" else "user-dashboard") := by
  by_cases h : identity.role = "admin"
  · simp [checkAuth, htoken, htext, hparse, navigateTo, loadAdminDashboard, h]
  · simp [checkAuth, htoken, htext, hparse, navigateTo, loadUserDashboard, h]

/-- Claim C20: when `JSON.parse` gives back the identity that `JSON.stringify`
wrote (and the text written is not empty), `checkAuth` on a fresh application
state with the storage left by a demo-mode `login` restores the token, the
identity and the dashboard of that login; and when the token entry or the user
entry is missing from the storage, `checkAuth` changes nothing. -/
theorem checkAuth_restores (json : JSON) (s : App) (storage : Storage) :
    (json.parse (json.stringify
          { username := s.loginForm.username,
            role := if s.loginForm.username = "admin" then "admin" else "user" }) =
        some { username := s.loginForm.username,
               role := if s.loginForm.username = "admin" then "admin" else "user" } →
      json.stringify
          { username := s.loginForm.username,
            role := if s.loginForm.username = "admin" then "admin" else "user" } ≠ "" →
      (mounted json (login json s storage).2).token = (login json s storage).1.token ∧
      (mounted json (login json s storage).2).user = (login json s storage).1.user ∧
      (mounted json (login json s storage).2).currentView =
        (login json s storage).1.currentView) ∧
    (∀ (s0 : App) (storage0 : Storage), storage0.token = none ∨ storage0.user = none →
      checkAuth json s0 storage0 = s0) := by
  constructor
  · intro hround hne
    have hl := login_fields json s storage
    have hc := checkAuth_entries json data "demo-token" _ _ (by decide) hne hround
    rw [hl.1, hl.2.1, hl.2.2.1, hl.2.2.2]
    unfold mounted
    refine ⟨hc.1, hc.2.1, ?_⟩
    rw [hc.2.2]
    by_cases hu : s.loginForm.username = "admin" <;> simp [hu]
  · intro s0 storage0 h
    rcases h with h | h
    · simp [checkAuth, h]
    · cases ht : storage0.token <;> simp [checkAuth, h, ht]

/-- Instance: `admin` logs in on the initial state with an empty storage, the
application restarts, and a restart on an empty storage stays on `login`. -/
theorem checkAuth_restores_witness :
    (mounted plainJSON (login plainJSON (withLoginForm data "admin" "pw") emptyStorage).2).token =
      some "demo-token" ∧
    (mounted plainJSON (login plainJSON (withLoginForm data "admin" "pw") emptyStorage).2).user =
      some { username := "admin", role := "admin" } ∧
    (mounted plainJSON (login plainJSON (withLoginForm data "admin" "pw")
      emptyStorage).2).currentView = "admin-dashboard" ∧
    checkAuth plainJSON data emptyStorage = data :=
  have h := checkAuth_restores plainJSON (withLoginForm data "admin" "pw") emptyStorage
  have h1 := h.1 (by decide) (by decide)
  ⟨h1.1.trans (by decide), h1.2.1.trans (by decide), h1.2.2.trans (by decide),
    h.2 data emptyStorage (Or.inl rfl)⟩

/-! ## Logout -/

/-- Claim C21: from every state and storage, after `logout` the user and the
token are `null`, both storage entries are removed, the current view is
`login`, and a `checkAuth` that follows (on the state left by `logout` or on a
fresh state) changes nothing, so that no identity is restored. -/
theorem logout_destroys_identity (json : JSON) (s : App) (storage : Storage) :
    (logout s storage).1.user = none ∧
    (logout s storage).1.token = none ∧
    (logout s storage).2 = { token := none, user := none } ∧
    (logout s storage).1.currentView = "login" ∧
    checkAuth json (logout s storage).1 (logout s storage).2 = (logout s storage).1 ∧
    (mounted json (logout s storage).2).user = none ∧
    (mounted json (logout s storage).2).token = none := by
  simp [logout, navigateTo, showSuccess, checkAuth, mounted, data]

/-! ## Frame of a booking, failed deletes -/

/-- Claim C22: a successful demo-mode `bookParkingSpot` on the selected lot
`L` changes, among lots and counters, only `L.available_slots` (one less): the
id, name, `price_per_hour` and `total_slots` of `L` are kept, every other lot
of `userData.parkingLots` is unchanged and `adminData`, the only place with
occupied counts, is unchanged. -/
theorem bookParkingSpot_frame (s : App) (now : Int) (i : Nat) (L : UserLot)
    (hsel : s.selectedLot = some i) (hL : s.userData.parkingLots[i]? = some L)
    (hpos : 0 < L.available_slots) :
    (bookParkingSpot s now).userData.parkingLots[i]? =
      some { id := L.id, name := L.name, total_slots := L.total_slots,
             available_slots := L.available_slots - 1, price_per_hour := L.price_per_hour } ∧
    (∀ k, k ≠ i →
      (bookParkingSpot s now).userData.parkingLots[k]? = s.userData.parkingLots[k]?) ∧
    (bookParkingSpot s now).userData.parkingLots.length = s.userData.parkingLots.length ∧
    (bookParkingSpot s now).adminData = s.adminData := by
  have h := (bookParkingSpot_userData s now i L hsel hL hpos).1
  have hi := getElem?_lt _ i L hL
  refine ⟨?_, ?_, ?_, ?_⟩
  · rw [h, List.getElem?_set]
    simp [hi]
  · intro k hk
    rw [h, List.getElem?_set_ne (Ne.symm hk)]
  · rw [h, List.length_set]
  · have hn : ¬ L.available_slots ≤ 0 := by omega
    simp [bookParkingSpot, hsel, hL, hn, clearMessages, showSuccess]

/-- Instance on the demo data: a booking on `Mall Parking` after the admin
dashboard was loaded. -/
theorem bookParkingSpot_frame_witness :
    (bookParkingSpot (confirmBooking (loadAdminDashboard (loadUserDashboard data)) 1)
        7).userData.parkingLots =
      [ { id := 1, name := "City Center Parking", total_slots := 50, available_slots := 18,
          price_per_hour := 40 },
        { id := 2, name := "Mall Parking", total_slots := 80, available_slots := 41,
          price_per_hour := 30 },
        { id := 3, name := "Airport Parking", total_slots := 120, available_slots := 65,
          price_per_hour := 60 } ] ∧
    (bookParkingSpot (confirmBooking (loadAdminDashboard (loadUserDashboard data)) 1)
        7).adminData = (loadAdminDashboard data).adminData :=
  have h := bookParkingSpot_frame
    (confirmBooking (loadAdminDashboard (loadUserDashboard data)) 1) 7 1
    { id := 2, name := "Mall Parking", total_slots := 80, available_slots := 42,
      price_per_hour := 30 }
    rfl rfl (by decide)
  ⟨by decide, h.2.2.2.trans (by decide)⟩

theorem findIndex_eq_none {α : Type} (p : α → Bool) (xs : List α)
    (h : ∀ x ∈ xs, p x = false) : findIndex p xs = none := by
  induction xs with
  | nil => rfl
  | cons a xs ih =>
    unfold findIndex
    have ha := h a (List.mem_cons_self a xs)
    simp [ha, ih (fun x hx => h x (List.mem_cons_of_mem a hx))]

/-- Claim C23: when no lot of the catalog has the id, a confirmed demo-mode
`deleteParkingLot` reports `Parking lot not found` and leaves `adminData`
(lots and statistics) unchanged; when the confirmation is declined it returns
the state as it was, messages included. -/
theorem deleteParkingLot_fails (s : App) (lotId : Int) :
    ((∀ lot ∈ s.adminData.parkingLots, lot.id ≠ lotId) →
      (deleteParkingLot s lotId true).error = some "Parking lot not found" ∧
      (deleteParkingLot s lotId true).adminData.parkingLots = s.adminData.parkingLots ∧
      (deleteParkingLot s lotId true).adminData.stats = s.adminData.stats ∧
      deleteParkingLot s lotId true =
        { s with error := some "Parking lot not found", success := none }) ∧
    deleteParkingLot s lotId false = s := by
  constructor
  · intro h
    have hidx : findIndex (fun lot => lot.id == lotId) s.adminData.parkingLots = none :=
      findIndex_eq_none _ _ (fun lot hlot => by simpa using h lot hlot)
    simp [deleteParkingLot, clearMessages, showError, hidx]
  · simp [deleteParkingLot]

/-- Instance on the demo catalog: no lot has id 9. -/
theorem deleteParkingLot_fails_witness :
    (deleteParkingLot (loadAdminDashboard data) 9 true).error = some "Parking lot not found" ∧
    (deleteParkingLot (loadAdminDashboard data) 9 true).adminData =
      (loadAdminDashboard data).adminData ∧
    deleteParkingLot (loadAdminDashboard data) 9 false = loadAdminDashboard data :=
  have h := deleteParkingLot_fails (loadAdminDashboard data) 9
  have h1 := h.1 (by decide)
  ⟨h1.1, by rw [h1.2.2.2], h.2⟩

/-! ## Available counts stay non-negative -/

theorem mem_set_cases {α : Type} (xs : List α) (i : Nat) (a x : α) (h : x ∈ xs.set i a) :
    x = a ∨ x ∈ xs := by
  induction xs generalizing i with
  | nil => simp at h
  | cons b xs ih =>
    cases i with
    | zero =>
      simp only [List.set_cons_zero, List.mem_cons] at h
      rcases h with h | h
      · exact Or.inl h
      · exact Or.inr (List.mem_cons_of_mem b h)
    | succ i =>
      simp only [List.set_cons_succ, List.mem_cons] at h
      rcases h with h | h
      · exact Or.inr (h ▸ List.mem_cons_self b xs)
      · rcases ih i h with h | h
        · exact Or.inl h
        · exact Or.inr (List.mem_cons_of_mem b h)

theorem bookParkingSpot_nonneg (s : App) (now : Int)
    (h : ∀ lot ∈ s.userData.parkingLots, 0 ≤ lot.available_slots) :
    ∀ lot ∈ (bookParkingSpot s now).userData.parkingLots, 0 ≤ lot.available_slots := by
  by_cases hb : ∃ i L, s.selectedLot = some i ∧ s.userData.parkingLots[i]? = some L ∧
      0 < L.available_slots
  · obtain ⟨i, L, hsel, hL, hpos⟩ := hb
    rw [(bookParkingSpot_userData s now i L hsel hL hpos).1]
    intro lot hlot
    rcases mem_set_cases _ _ _ _ hlot with rfl | hmem
    · show 0 ≤ L.available_slots - 1
      omega
    · exact h lot hmem
  · rw [bookParkingSpot_unchanged s now hb]
    exact h

theorem releaseParkingSpot_nonneg (s : App) (random : ℚ)
    (h : ∀ lot ∈ s.userData.parkingLots, 0 ≤ lot.available_slots) :
    ∀ lot ∈ (releaseParkingSpot s random).userData.parkingLots, 0 ≤ lot.available_slots := by
  cases hsel : s.selectedReservation with
  | none => simpa [releaseParkingSpot, hsel] using h
  | some j =>
    cases hres : s.userData.reservations[j]? with
    | none => simpa [releaseParkingSpot, hsel, hres] using h
    | some res =>
      rw [(releaseParkingSpot_userData s random j res hsel hres).2.1]
      cases hidx : findIndex (fun lot => lot.name == res.lot_name) s.userData.parkingLots with
      | none => exact h
      | some k =>
        cases hk : s.userData.parkingLots[k]? with
        | none =>
          simp only [hk]
          exact h
        | some l =>
          simp only [hk]
          intro lot hlot
          rcases mem_set_cases _ _ _ _ hlot with rfl | hmem
          · have := h l (List.getElem?_mem hk)
            show 0 ≤ l.available_slots + 1
            omega
          · exact h lot hmem

/-- Claim C25: if every lot of `userData.parkingLots` has
`available_slots >= 0`, then after any sequence of demo-mode
`bookParkingSpot` and `releaseParkingSpot` calls, with any selections in
between, every lot still has `available_slots >= 0`. -/
theorem userRun_available_nonneg (s : App) (actions : List UserAction)
    (h : ∀ lot ∈ s.userData.parkingLots, 0 ≤ lot.available_slots) :
    ∀ lot ∈ (userRun s actions).userData.parkingLots, 0 ≤ lot.available_slots := by
  unfold userRun
  induction actions generalizing s with
  | nil => exact h
  | cons a actions ih =>
    apply ih
    cases a with
    | select i => exact h
    | selectReservation j => exact h
    | book now => exact bookParkingSpot_nonneg s now h
    | release random => exact releaseParkingSpot_nonneg s random h

/-- Instance: the only slot of a lot is booked, a second booking is refused,
and the slot is released again. -/
theorem userRun_available_nonneg_witness :
    (userRun
        { data with
          userData :=
            { parkingLots :=
                [ { id := 1, name := "P", total_slots := 1, available_slots := 1,
                    price_per_hour := 40 } ]
              reservations := [] } }
        [.select 0, .book 7, .select 0, .book 8]).userData.parkingLots.map (·.available_slots) =
      [0] ∧
    (0 : Int) ≤ 0 :=
  ⟨by decide,
    userRun_available_nonneg
      { data with
        userData :=
          { parkingLots :=
              [ { id := 1, name := "P", total_slots := 1, available_slots := 1,
                  price_per_hour := 40 } ]
            reservations := [] } }
      [.select 0, .book 7, .select 0, .book 8] (by decide)
      { id := 1, name := "P", total_slots := 1, available_slots := 0, price_per_hour := 40 }
      (by decide)⟩

/-! ## Release looks the lot up by name -/

/-- Claim C26: when the `lot_name` of the selected reservation is the name of
no lot of `userData.parkingLots`, demo-mode `releaseParkingSpot` still sets
the status to `completed` and reports success while the list of lots is
unchanged; when lots have that name, the first of them in list order gets one
more available slot and every other lot, later lots of the same name
included, is unchanged. -/
theorem releaseParkingSpot_by_name (s : App) (random : ℚ) (j : Nat) (res : Reservation)
    (hsel : s.selectedReservation = some j) (hres : s.userData.reservations[j]? = some res) :
    ((∀ lot ∈ s.userData.parkingLots, lot.name ≠ res.lot_name) →
      (releaseParkingSpot s random).userData.reservations[j]? =
        some { res with status := "completed" } ∧
      (releaseParkingSpot s random).success =
        some (releaseMessage (res.cost * durationHours random) (durationHours random)) ∧
      (releaseParkingSpot s random).error = none ∧
      (releaseParkingSpot s random).userData.parkingLots = s.userData.parkingLots) ∧
    (∀ i L, s.userData.parkingLots[i]? = some L → L.name = res.lot_name →
      (∀ lot ∈ s.userData.parkingLots.take i, lot.name ≠ res.lot_name) →
      (releaseParkingSpot s random).userData.parkingLots[i]? =
        some { L with available_slots := L.available_slots + 1 } ∧
      ∀ k, k ≠ i →
        (releaseParkingSpot s random).userData.parkingLots[k]? =
          s.userData.parkingLots[k]?) := by
  have h := releaseParkingSpot_userData s random j res hsel hres
  constructor
  · intro hno
    have hidx : findIndex (fun lot => lot.name == res.lot_name) s.userData.parkingLots = none :=
      findIndex_eq_none _ _ (fun lot hlot => by simpa using hno lot hlot)
    refine ⟨?_, h.2.2.1, ?_, ?_⟩
    · rw [h.1, List.getElem?_set]
      simp [getElem?_lt _ j res hres]
    · simp [releaseParkingSpot, hsel, hres, clearMessages, showSuccess]
    · rw [h.2.1, hidx]
  · intro i L hL hname hfirst
    have hl := releaseParkingSpot_parkingLots_first s random i j L res hsel hres hL hname.symm
      (by rw [hname]; exact hfirst)
    constructor
    · rw [hl, List.getElem?_set]
      simp [getElem?_lt _ i L hL]
    · intro k hk
      rw [hl, List.getElem?_set_ne (Ne.symm hk)]

/-- Instance: a reservation on the unknown lot `Q` leaves both lots named `P`
at 5 and 3 free slots; a reservation on `P` raises the first of them only. -/
theorem releaseParkingSpot_by_name_witness :
    (releaseParkingSpot { orphanReservation with selectedReservation := some 0 }
        (1 / 2)).userData.parkingLots = orphanReservation.userData.parkingLots ∧
    (releaseParkingSpot { orphanReservation with selectedReservation := some 0 }
        (1 / 2)).userData.reservations[0]? =
      some { id := 11, lot_name := "Q", status := "completed", cost := 10 } ∧
    (releaseParkingSpot { orphanReservation with selectedReservation := some 1 }
        (1 / 2)).userData.parkingLots[0]? =
      some { id := 1, name := "P", total_slots := 10, available_slots := 5 + 1,
             price_per_hour := 40 } ∧
    (releaseParkingSpot { orphanReservation with selectedReservation := some 1 }
        (1 / 2)).userData.parkingLots[1]? = orphanReservation.userData.parkingLots[1]? :=
  have h0 := (releaseParkingSpot_by_name
    { orphanReservation with selectedReservation := some 0 } (1 / 2) 0
    { id := 11, lot_name := "Q", status := "active", cost := 10 } rfl rfl).1 (by decide)
  have h1 := (releaseParkingSpot_by_name
    { orphanReservation with selectedReservation := some 1 } (1 / 2) 1
    { id := 12, lot_name := "P", status := "active", cost := 30 } rfl rfl).2 0
    { id := 1, name := "P", total_slots := 10, available_slots := 5, price_per_hour := 40 }
    rfl rfl (by decide)
  ⟨h0.2.2.2, h0.1, h1.1, h1.2 1 (by decide)⟩

/-! ## Active and completed reservations -/

theorem filter_status_length (reservations : List Reservation)
    (h : ∀ res ∈ reservations, res.status = "active" ∨ res.status = "completed") :
    (reservations.filter (fun res => res.status == "active")).length +
        (reservations.filter (fun res => res.status == "completed")).length =
      reservations.length := by
  induction reservations with
  | nil => rfl
  | cons a rest ih =>
    have ih := ih (fun res hres => h res (List.mem_cons_of_mem a hres))
    rcases h a (List.mem_cons_self a rest) with ha | ha
    · simp only [List.filter_cons, ha, List.length_cons]
      simp only [beq_self_eq_true, if_true, List.length_cons]
      have : ("active" == "completed") = false := by decide
      simp only [this]
      simp only [Bool.false_eq_true, if_false]
      omega
    · simp only [List.filter_cons, ha, List.length_cons]
      simp only [beq_self_eq_true, if_true, List.length_cons]
      have : ("completed" == "active") = false := by decide
      simp only [this]
      simp only [Bool.false_eq_true, if_false]
      omega

/-- Claim C27: `activeReservations` and `completedReservations` are
order-preserving sublists of `userData.reservations` and no reservation is in
both; when every status is `active` or `completed`, every reservation is in
exactly one of them and their lengths add up to the length of
`userData.reservations`. -/
theorem reservations_split (s : App) :
    (activeReservations s).Sublist s.userData.reservations ∧
    (completedReservations s).Sublist s.userData.reservations ∧
    (∀ res, res ∈ activeReservations s → res ∉ completedReservations s) ∧
    ((∀ res ∈ s.userData.reservations, res.status = "active" ∨ res.status = "completed") →
      (∀ res ∈ s.userData.reservations,
        (res ∈ activeReservations s ∧ res ∉ completedReservations s) ∨
        (res ∉ activeReservations s ∧ res ∈ completedReservations s)) ∧
      (activeReservations s).length + (completedReservations s).length =
        s.userData.reservations.length) := by
  have hdis : ∀ res, res ∈ activeReservations s → res ∉ completedReservations s := by
    intro res ha hc
    simp only [activeReservations, completedReservations, List.mem_filter, beq_iff_eq] at ha hc
    rw [ha.2] at hc
    exact absurd hc.2 (by decide)
  refine ⟨List.filter_sublist _, List.filter_sublist _, hdis, ?_⟩
  intro h
  refine ⟨?_, filter_status_length _ h⟩
  intro res hres
  rcases h res hres with ha | hc
  · have hmem : res ∈ activeReservations s := by
      simp [activeReservations, hres, ha]
    exact Or.inl ⟨hmem, hdis res hmem⟩
  · have hmem : res ∈ completedReservations s := by
      simp [completedReservations, hres, hc]
    exact Or.inr ⟨fun ha => hdis res ha hmem, hmem⟩

/-- Instance on the demo data: one active and two completed reservations. -/
theorem reservations_split_witness :
    (activeReservations (loadUserDashboard data)).map (·.id) = [101] ∧
    (completedReservations (loadUserDashboard data)).map (·.id) = [102, 103] ∧
    (activeReservations (loadUserDashboard data)).length +
        (completedReservations (loadUserDashboard data)).length =
      (loadUserDashboard data).userData.reservations.length :=
  ⟨by decide, by decide,
    ((reservations_split (loadUserDashboard data)).2.2.2 (by decide)).2⟩

/-! ## Durations -/

/-- Claim C29: with `m` the elapsed whole minutes, `calculateDuration` shows
`<m> min` for `m < 60` and `<h>h <r>m` for `m >= 60`, where `h` is
`floor(m / 60)` and `r` is `m mod 60`, so that `60 * h + r == m` and
`0 <= r < 60`; for a missing start time it returns `N/A`. -/
theorem calculateDuration_split (start now : Int) :
    (Int.fdiv (now - start) 60000 < 60 →
      calculateDuration (.time start) now =
        toString (Int.fdiv (now - start) 60000) ++ " min") ∧
    (60 ≤ Int.fdiv (now - start) 60000 →
      ∃ h r : Int,
        calculateDuration (.time start) now = toString h ++ "h " ++ toString r ++ "m" ∧
        h = Int.fdiv (now - start) 60000 / 60 ∧ r = Int.fdiv (now - start) 60000 % 60 ∧
        60 * h + r = Int.fdiv (now - start) 60000 ∧ 0 ≤ r ∧ r < 60) ∧
    calculateDuration .missing now = "N/A" := by
  refine ⟨?_, ?_, rfl⟩
  · intro hm
    simp only [calculateDuration, hm, if_true]
    rfl
  · intro hm
    have hn : ¬ Int.fdiv (now - start) 60000 < 60 := by omega
    have hdiv : Int.fdiv (Int.fdiv (now - start) 60000) 60 =
        Int.fdiv (now - start) 60000 / 60 := Int.fdiv_eq_ediv _ (by decide)
    have hmod : Int.tmod (Int.fdiv (now - start) 60000) 60 =
        Int.fdiv (now - start) 60000 % 60 := Int.tmod_eq_emod (by omega) (by decide)
    refine ⟨Int.fdiv (now - start) 60000 / 60, Int.fdiv (now - start) 60000 % 60,
      ?_, rfl, rfl, ?_, ?_, ?_⟩
    · simp only [calculateDuration, hn, if_false, hdiv, hmod]
      rfl
    · exact Int.ediv_add_emod _ _
    · exact Int.emod_nonneg _ (by decide)
    · exact Int.emod_lt_of_pos _ (by decide)

/-- Instance: 45 minutes and 125 minutes after the start. -/
theorem calculateDuration_split_witness :
    calculateDuration (.time 0) 2700000 = "45 min" ∧
    calculateDuration (.time 0) 7500000 = "2h 5m" :=
  ⟨((calculateDuration_split 0 2700000).1 (by decide)).trans (by decide),
    by
      obtain ⟨h, r, hc, hh, hr, -⟩ := (calculateDuration_split 0 7500000).2.1 (by decide)
      rw [hc, hh, hr]
      decide⟩

/-! ## Search in the lots table -/

theorem filterLots_total (callback : AdminLot → Option Bool) (keep : AdminLot → Bool)
    (lots : List AdminLot) (h : ∀ lot ∈ lots, callback lot = some (keep lot)) :
    filterLots callback lots = some (lots.filter keep) := by
  induction lots with
  | nil => rfl
  | cons lot lots ih =>
    have hl := h lot (List.mem_cons_self lot lots)
    have ih := ih (fun l hmem => h l (List.mem_cons_of_mem lot hmem))
    simp only [filterLots, hl, ih, List.filter_cons]

theorem filteredParkingLots_complete (toLowerCase : String → String) (s : App)
    (h : ∀ lot ∈ s.adminData.parkingLots, ∃ address pincode,
      lot.address = some address ∧ lot.pincode = some pincode) :
    (s.searchQuery = "" → filteredParkingLots toLowerCase s = some s.adminData.parkingLots) ∧
    (s.searchQuery ≠ "" →
      filteredParkingLots toLowerCase s =
        some (s.adminData.parkingLots.filter (fun lot =>
          includes (toLowerCase lot.name) (toLowerCase s.searchQuery) ||
          includes (toLowerCase (lot.address.getD "")) (toLowerCase s.searchQuery) ||
          includes (lot.pincode.getD "") (toLowerCase s.searchQuery)))) := by
  constructor
  · intro hq
    simp [filteredParkingLots, hq]
  · intro hq
    simp only [filteredParkingLots, hq, if_false]
    apply filterLots_total
    intro lot hlot
    obtain ⟨address, pincode, ha, hp⟩ := h lot hlot
    simp only [matchesQuery, ha, hp, Option.getD_some]
    by_cases h1 : includes (toLowerCase lot.name) (toLowerCase s.searchQuery) = true
    · simp [h1]
    · by_cases h2 : includes (toLowerCase address) (toLowerCase s.searchQuery) = true
      · simp [h1, h2]
      · simp [h1, h2]

/-- Claim C24 fails on the code: on the catalog that demo-mode
`loadAdminDashboard` installs, whose lots have neither address nor pincode,
`filteredParkingLots` throws for the query `mall` (the name of the first lot
does not contain it, so `lot.address.toLowerCase()` is evaluated on
`undefined`). It returns the catalog for the empty query and for `PARKING`,
which every name contains; after `createParkingLot` added the lot `X` it still
throws for the query `x`. -/
theorem filteredParkingLots_throws_on_demo_catalog :
    filteredParkingLots asciiLower { loadAdminDashboard data with searchQuery := "mall" } =
      none ∧
    filteredParkingLots asciiLower { loadAdminDashboard data with searchQuery := "" } =
      some (loadAdminDashboard data).adminData.parkingLots ∧
    filteredParkingLots asciiLower { loadAdminDashboard data with searchQuery := "PARKING" } =
      some (loadAdminDashboard data).adminData.parkingLots ∧
    filteredParkingLots asciiLower { adminRun data [.create formX 7] with searchQuery := "x" } =
      none := by
  decide

/-! ## Spending per lot -/

/-- Claim C28 fails on the code: `spendingByLot` is an object literal, which
inherits properties. For one completed reservation of cost 40 on a lot named
`constructor` the label is there but its value is a text, not 40; on a lot
named `__proto__` there is no label at all. On the demo data the labels are
the two lots with completed reservations, with values 90 and 180. -/
theorem renderUserSpendingChart_inherited_names :
    renderUserSpendingChart
        [ { id := 1, lot_name := "constructor", status := "completed", cost := 40 } ] =
      some (["constructor"], [.text]) ∧
    renderUserSpendingChart
        [ { id := 1, lot_name := "__proto__", status := "completed", cost := 40 } ] =
      some ([], []) ∧
    renderUserSpendingChart (loadUserDashboard data).userData.reservations =
      some (["Mall Parking", "Airport Parking"], [.number 90, .number 180]) := by
  decide

theorem lookup_setOwn (object : List (String × Spending)) (name k : String) (v : Spending) :
    (setOwn object name v).lookup k = if k = name then some v else object.lookup k := by
  induction object with
  | nil =>
    by_cases h : k = name
    · simp [setOwn, List.lookup, h]
    · have hb : (k == name) = false := by simpa using h
      simp [setOwn, List.lookup, h, hb]
  | cons entry rest ih =>
    obtain ⟨key, old⟩ := entry
    by_cases hk : key = name
    · subst hk
      by_cases h : k = key
      · simp [setOwn, List.lookup_cons, h]
      · have hb : (k == key) = false := by simpa using h
        simp [setOwn, List.lookup_cons, h, hb]
    · by_cases h : k = name
      · subst h
        have hne : (k == key) = false := by simpa using fun h2 : k = key => hk h2.symm
        simp [setOwn, List.lookup_cons, hk, hne, ih]
      · simp [setOwn, List.lookup_cons, hk, h, ih]

theorem keys_setOwn (object : List (String × Spending)) (name : String) (v : Spending) :
    (setOwn object name v).map (·.1) =
      if name ∈ object.map (·.1) then object.map (·.1) else object.map (·.1) ++ [name] := by
  induction object with
  | nil => simp [setOwn]
  | cons entry rest ih =>
    obtain ⟨key, old⟩ := entry
    by_cases hk : key = name
    · subst hk
      simp [setOwn]
    · have hne : ¬ name = key := fun h => hk h.symm
      by_cases hmem : name ∈ rest.map (·.1)
      · simp only [setOwn, hk, if_false, List.map_cons, ih, hmem, if_true, List.mem_cons,
          or_true]
      · simp only [setOwn, hk, if_false, List.map_cons, ih, hmem, List.mem_cons, hne,
          or_self, List.cons_append]

theorem sum_setOwn (object : List (String × Spending)) (name : String) (v : Spending) :
    ((setOwn object name v).map (fun entry => entry.2.value)).sum =
      (object.map (fun entry => entry.2.value)).sum -
        ((object.lookup name).map Spending.value).getD 0 + v.value := by
  induction object with
  | nil => simp [setOwn, List.lookup]
  | cons entry rest ih =>
    obtain ⟨key, old⟩ := entry
    by_cases hk : key = name
    · subst hk
      simp only [setOwn, if_true, List.map_cons, List.sum_cons, List.lookup_cons_self,
        Option.map_some', Option.getD_some]
      omega
    · have hne : (name == key) = false := by simpa using fun h2 : name = key => hk h2.symm
      simp only [setOwn, hk, if_false, List.map_cons, List.sum_cons, ih, List.lookup_cons, hne]
      omega

theorem lookup_of_mem (object : List (String × Spending)) (k : String) (v : Spending)
    (hnodup : (object.map (·.1)).Nodup) (hmem : (k, v) ∈ object) :
    object.lookup k = some v := by
  induction object with
  | nil => simp at hmem
  | cons entry rest ih =>
    obtain ⟨key, old⟩ := entry
    simp only [List.map_cons, List.nodup_cons] at hnodup
    simp only [List.mem_cons, Prod.mk.injEq] at hmem
    rcases hmem with ⟨rfl, rfl⟩ | hmem
    · simp
    · have hne : (k == key) = false := by
        simp only [beq_eq_false_iff_ne, ne_eq]
        rintro rfl
        exact hnodup.1 (List.mem_map.2 ⟨(k, v), hmem, rfl⟩)
      simp only [List.lookup_cons, hne]
      exact ih hnodup.2 hmem

theorem mem_keys_of_lookup (object : List (String × Spending)) (k : String) :
    k ∈ object.map (·.1) ↔ object.lookup k ≠ none := by
  induction object with
  | nil => simp [List.lookup]
  | cons entry rest ih =>
    obtain ⟨key, old⟩ := entry
    by_cases h : k = key
    · subst h
      simp
    · have hne : (k == key) = false := by simpa using h
      simp only [List.map_cons, List.mem_cons, h, false_or, ih, List.lookup_cons, hne]

theorem costOn_append (name : String) (done : List Reservation) (r : Reservation) :
    costOn name (done ++ [r]) =
      costOn name done + (if r.lot_name = name then r.cost else 0) := by
  unfold costOn
  by_cases h : r.lot_name = name
  · simp [List.filter_append, List.filter_cons, h]
  · simp [List.filter_append, List.filter_cons, h]

theorem costOn_absent (name : String) (done : List Reservation)
    (h : name ∉ done.map (·.lot_name)) : costOn name done = 0 := by
  unfold costOn
  have : done.filter (fun r => r.lot_name == name) = [] := by
    rw [List.filter_eq_nil_iff]
    intro r hr hname
    exact h (List.mem_map.2 ⟨r, hr, by simpa using hname⟩)
  rw [this]
  rfl

theorem addSpending_number (object : List (String × Spending)) (done : List Reservation)
    (r : Reservation) (hname : r.lot_name ∉ inheritedNames)
    (hlookup : ∀ k, object.lookup k =
      if k ∈ done.map (·.lot_name) then some (.number (costOn k done)) else none) :
    addSpending object r =
      setOwn object r.lot_name (.number (costOn r.lot_name done + r.cost)) := by
  unfold addSpending
  by_cases hmem : r.lot_name ∈ done.map (·.lot_name)
  · simp only [hlookup r.lot_name, hmem, if_true]
    by_cases h0 : costOn r.lot_name done = 0
    · simp [h0]
    · simp [h0]
  · simp only [hlookup r.lot_name, hmem, if_false, hname]
    rw [costOn_absent _ _ hmem]
    simp

theorem foldl_addSpending (rs done : List Reservation) (object : List (String × Spending))
    (hnames : ∀ r ∈ rs, r.lot_name ∉ inheritedNames)
    (hnodup : (object.map (·.1)).Nodup)
    (hlookup : ∀ k, object.lookup k =
      if k ∈ done.map (·.lot_name) then some (.number (costOn k done)) else none)
    (hsum : (object.map (fun entry => entry.2.value)).sum = (done.map (·.cost)).sum) :
    ((rs.foldl addSpending object).map (·.1)).Nodup ∧
    (∀ k, (rs.foldl addSpending object).lookup k =
      if k ∈ (done ++ rs).map (·.lot_name) then some (.number (costOn k (done ++ rs)))
      else none) ∧
    ((rs.foldl addSpending object).map (fun entry => entry.2.value)).sum =
      ((done ++ rs).map (·.cost)).sum := by
  induction rs generalizing done object with
  | nil =>
    simp only [List.foldl_nil, List.append_nil]
    exact ⟨hnodup, hlookup, hsum⟩
  | cons r rs ih =>
    have hr := hnames r (List.mem_cons_self r rs)
    have hstep := addSpending_number object done r hr hlookup
    have h := ih (done ++ [r]) (addSpending object r)
      (fun x hx => hnames x (List.mem_cons_of_mem r hx)) ?_ ?_ ?_
    · have e : done ++ r :: rs = (done ++ [r]) ++ rs := by simp
      rw [List.foldl_cons, e]
      exact h
    · rw [hstep, keys_setOwn]
      by_cases hmem : r.lot_name ∈ object.map (·.1)
      · simpa [hmem] using hnodup
      · simp only [hmem, if_false]
        rw [List.nodup_append]
        refine ⟨hnodup, by simp, ?_⟩
        intro a ha hb
        simp only [List.mem_singleton] at hb
        subst hb
        exact hmem ha
    · intro k
      rw [hstep, lookup_setOwn, costOn_append]
      by_cases hk : k = r.lot_name
      · subst hk
        simp
      · have hk2 : ¬ r.lot_name = k := fun h2 => hk h2.symm
        simp only [hk, if_false, hlookup k, List.map_append, List.mem_append, List.map_cons,
          List.map_nil, List.mem_singleton, or_false, hk2, Int.add_zero]
    · rw [hstep, sum_setOwn, hsum, hlookup r.lot_name]
      by_cases hmem : r.lot_name ∈ done.map (·.lot_name)
      · simp only [hmem, if_true, Option.map_some', Option.getD_some, Spending.value,
          List.map_append, List.sum_append, List.map_cons, List.map_nil, List.sum_cons,
          List.sum_nil]
        omega
      · simp only [hmem, if_false, Option.map_none', Option.getD_none, Spending.value,
          List.map_append, List.sum_append, List.map_cons, List.map_nil, List.sum_cons,
          List.sum_nil, costOn_absent _ _ hmem]
        omega

theorem ownEntries_perm (object : List (String × Spending)) :
    (ownEntries object).Perm object := by
  unfold ownEntries
  have h1 := List.perm_insertionSort
    (fun a b : String × Spending => (arrayIndex a.1).getD 0 ≤ (arrayIndex b.1).getD 0)
    (object.filter (fun entry => (arrayIndex entry.1).isSome))
  have h2 := List.filter_append_perm (fun entry : String × Spending => (arrayIndex entry.1).isSome)
    object
  have h3 : object.filter (fun entry => (arrayIndex entry.1).isNone) =
      object.filter (fun entry => !(arrayIndex entry.1).isSome) := by
    congr 1
    funext entry
    cases arrayIndex entry.1 <;> rfl
  rw [h3]
  exact (h1.append_right _).trans h2

/-- The aggregation is right for all other names: when there is a completed
reservation and no completed reservation is on a lot whose name is inherited
from `Object.prototype`, the labels are pairwise distinct, they are the lot
names of the completed reservations, each value is the number that sums the
costs of the completed reservations on that lot, and the values sum to the
total cost of the completed reservations. -/
theorem renderUserSpendingChart_sums (reservations : List Reservation)
    (hsome : ∃ r ∈ reservations, r.status = "completed")
    (hnames : ∀ r ∈ reservations, r.status = "completed" → r.lot_name ∉ inheritedNames) :
    ∃ entries : List (String × Spending),
      renderUserSpendingChart reservations = some (entries.map (·.1), entries.map (·.2)) ∧
      (entries.map (·.1)).Nodup ∧
      (∀ name, name ∈ entries.map (·.1) ↔
        ∃ r ∈ reservations, r.status = "completed" ∧ r.lot_name = name) ∧
      (∀ entry ∈ entries,
        entry.2 = .number
          (costOn entry.1 (reservations.filter (fun r => r.status == "completed")))) ∧
      ((entries.map (·.2)).map Spending.value).sum =
        ((reservations.filter (fun r => r.status == "completed")).map (·.cost)).sum := by
  have hlen : ¬ (reservations.filter (fun r => r.status == "completed")).length = 0 := by
    obtain ⟨r, hr, hs⟩ := hsome
    intro h0
    have hmem : r ∈ reservations.filter (fun r => r.status == "completed") := by
      simp [List.mem_filter, hr, hs]
    rw [List.length_eq_zero] at h0
    rw [h0] at hmem
    simp at hmem
  have hinv := foldl_addSpending (reservations.filter (fun r => r.status == "completed")) [] []
    (fun r hr => by
      simp only [List.mem_filter, beq_iff_eq] at hr
      exact hnames r hr.1 hr.2)
    (by simp) (by intro k; simp [List.lookup]) (by simp)
  simp only [List.nil_append] at hinv
  obtain ⟨hnodup, hlookup, hsum⟩ := hinv
  have hperm := ownEntries_perm
    ((reservations.filter (fun r => r.status == "completed")).foldl addSpending [])
  refine ⟨ownEntries
    ((reservations.filter (fun r => r.status == "completed")).foldl addSpending []), ?_, ?_, ?_,
    ?_, ?_⟩
  · simp only [renderUserSpendingChart, hlen, if_false]
  · exact ((hperm.map (·.1)).nodup_iff).2 hnodup
  · intro name
    rw [(hperm.map (·.1)).mem_iff, mem_keys_of_lookup, hlookup name]
    constructor
    · intro h
      by_cases hmem : name ∈ (reservations.filter (fun r => r.status == "completed")).map
          (·.lot_name)
      · obtain ⟨r, hr, hn⟩ := List.mem_map.1 hmem
        simp only [List.mem_filter, beq_iff_eq] at hr
        exact ⟨r, hr.1, hr.2, hn⟩
      · simp [hmem] at h
    · rintro ⟨r, hr, hs, hn⟩
      have hmem : name ∈ (reservations.filter (fun r => r.status == "completed")).map
          (·.lot_name) :=
        List.mem_map.2 ⟨r, by simp [List.mem_filter, hr, hs], hn⟩
      simp [hmem]
  · intro entry hentry
    have hmem := hperm.mem_iff.1 hentry
    have hl := lookup_of_mem _ entry.1 entry.2 hnodup hmem
    rw [hlookup entry.1] at hl
    by_cases hk : entry.1 ∈ (reservations.filter (fun r => r.status == "completed")).map
        (·.lot_name)
    · simp only [hk, if_true, Option.some.injEq] at hl
      exact hl.symm
    · simp [hk] at hl
  · rw [List.map_map]
    have := (hperm.map (fun entry : String × Spending => entry.2.value)).sum_eq
    rw [← hsum]
    exact this

end ParkingApp
